import Mathlib

/-!
Shallow embedding of the gonesem NES emulator core (Go) and proofs about it.

Conventions of the embedding:
* Go machine integers become `Nat`.  A `uint8` array or field is modelled by a
  `Nat`-valued function or field whose reads reduce modulo 256 and whose writes
  store modulo 256; `uint16` arithmetic that can wrap carries an explicit
  `% 65536`, `uint8` arithmetic an explicit `% 256`, and the `uint64` cycle
  counters an explicit `% 2 ^ 64`.  Go `x--` on a `uint8` becomes
  `(x + 255) % 256`, `^x` on `uint16` becomes `x ^^^ 0xFFFF`, and `a &^ b` on
  `uint8` becomes `a &&& (b ^^^ 0xFF)`.
* Go functions that mutate a struct through a pointer become Lean functions
  returning the updated structure (paired with the read value where Go returns
  one).
* The Go opcode table stores function pointers; the embedding stores a tag of
  the inductive `Op` per table row, and `runOp` maps each tag to the Lean
  function embedding the Go function of the same name.
-/

namespace Gonesem

/-! ## CPU data model and helpers (src/nes/cpu/cpu.go) -/

def StatusCarry : Nat := 1
def StatusZero : Nat := 2
def StatusInterrupt : Nat := 4
def StatusDecimal : Nat := 8
def StatusBreak : Nat := 16
def StatusUnused : Nat := 32
def StatusOverflow : Nat := 64
def StatusNegative : Nat := 128

def StackPage : Nat := 0x0100
def StackReset : Nat := 0xFD

def ResetVector : Nat := 0xFFFC
def IRQVector : Nat := 0xFFFE
def NMIVector : Nat := 0xFFFA

inductive AddressingMode where
  | implied
  | accumulator
  | immediate
  | zeroPage
  | zeroPageX
  | zeroPageY
  | relative
  | absolute
  | absoluteX
  | absoluteY
  | indirect
  | indirectX
  | indirectY
deriving DecidableEq

structure OperationArgs where
  addrMode : AddressingMode
  address : Nat
deriving DecidableEq

structure CPU where
  A : Nat
  X : Nat
  Y : Nat
  PC : Nat
  SP : Nat
  SR : Nat
  cycles : Nat
  TotalCycles : Nat
  RAM : Nat → Nat

def Btou8 (b : Bool) : Nat := if b then 1 else 0

def CPU.Read (cpu : CPU) (addr : Nat) : Nat :=
  cpu.RAM (addr % 65536) % 256

def CPU.Write (cpu : CPU) (addr value : Nat) : CPU :=
  {cpu with RAM := fun a => if a = addr % 65536 then value % 256 else cpu.RAM a}

def CPU.ReadWord (cpu : CPU) (addr : Nat) : Nat :=
  let lo := cpu.Read addr
  let hi := cpu.Read ((addr + 1) % 65536)
  (hi <<< 8) ||| lo

def CPU.readWordbug (cpu : CPU) (addr : Nat) : Nat :=
  if addr &&& 0x00FF = 0x00FF then
    ((cpu.Read (addr &&& 0xFF00)) <<< 8) ||| cpu.Read addr
  else
    cpu.ReadWord addr

def CPU.WriteWord (cpu : CPU) (addr value : Nat) : CPU :=
  let hi := (value >>> 8) % 256
  let lo := value &&& 0x00FF
  let cpu := cpu.Write addr lo
  cpu.Write ((addr + 1) % 65536) hi

def CPU.push (cpu : CPU) (value : Nat) : CPU :=
  let cpu := cpu.Write (StackPage + cpu.SP) value
  {cpu with SP := (cpu.SP + 255) % 256}

def CPU.pop (cpu : CPU) : Nat × CPU :=
  let cpu := {cpu with SP := (cpu.SP + 1) % 256}
  (cpu.Read (StackPage + cpu.SP), cpu)

def CPU.pushWord (cpu : CPU) (value : Nat) : CPU :=
  let hi := (value >>> 8) % 256
  let lo := value &&& 0x00FF
  let cpu := cpu.push hi
  cpu.push lo

def CPU.popWord (cpu : CPU) : Nat × CPU :=
  let (lo, cpu) := cpu.pop
  let (hi, cpu) := cpu.pop
  ((hi <<< 8) ||| lo, cpu)

def CPU.setStatus (cpu : CPU) (status : Nat) (value : Bool) : CPU :=
  if value then
    {cpu with SR := cpu.SR ||| status}
  else
    {cpu with SR := cpu.SR &&& (status ^^^ 0xFF)}

def CPU.getStatus (cpu : CPU) (status : Nat) : Bool :=
  cpu.SR &&& status != 0

def CPU.setZ (cpu : CPU) (value : Nat) : CPU :=
  if value = 0 then
    cpu.setStatus StatusZero true
  else
    cpu.setStatus StatusZero false

def CPU.setN (cpu : CPU) (value : Nat) : CPU :=
  if value &&& 0x80 ≠ 0 then
    cpu.setStatus StatusNegative true
  else
    cpu.setStatus StatusNegative false

def CPU.setZN (cpu : CPU) (value : Nat) : CPU :=
  (cpu.setZ value).setN value

def CPU.pageCrossed (a b : Nat) : Bool :=
  a &&& 0xFF00 != b &&& 0xFF00

def CPU.branch (cpu : CPU) (b : Bool) (address : Nat) : CPU :=
  if b then
    let cpu := {cpu with cycles := (cpu.cycles + 1) % 256}
    let cpu :=
      if CPU.pageCrossed address cpu.PC then
        {cpu with cycles := (cpu.cycles + 1) % 256}
      else
        cpu
    {cpu with PC := address}
  else
    cpu

def CPU.Reset (cpu : CPU) : CPU :=
  {cpu with
    A := 0
    X := 0
    Y := 0
    PC := cpu.ReadWord ResetVector
    SP := StackReset
    SR := StatusUnused ||| StatusInterrupt
    cycles := 0
    TotalCycles := 0}

/-- `NewCPU` builds a zero-value CPU over the given RAM contents and resets
it, as the Go constructor does. -/
def NewCPU (ram : Nat → Nat) : CPU :=
  CPU.Reset ⟨0, 0, 0, 0, 0, 0, 0, 0, ram⟩

def CPU.IRQ (cpu : CPU) : CPU :=
  if !cpu.getStatus StatusInterrupt then
    let cpu := cpu.pushWord cpu.PC
    let cpu := cpu.setStatus StatusBreak false
    let cpu := cpu.setStatus StatusInterrupt true
    let cpu := cpu.setStatus StatusUnused true
    let cpu := cpu.push cpu.SR
    let cpu := {cpu with PC := cpu.ReadWord IRQVector}
    let cpu := {cpu with cycles := 7}
    {cpu with TotalCycles := (cpu.TotalCycles + cpu.cycles) % 2 ^ 64}
  else
    cpu

def CPU.NMI (cpu : CPU) : CPU :=
  let cpu := cpu.pushWord cpu.PC
  let cpu := cpu.setStatus StatusBreak false
  let cpu := cpu.setStatus StatusInterrupt true
  let cpu := cpu.setStatus StatusUnused true
  let cpu := cpu.push cpu.SR
  let cpu := {cpu with PC := cpu.ReadWord NMIVector}
  let cpu := {cpu with cycles := 8}
  {cpu with TotalCycles := (cpu.TotalCycles + cpu.cycles) % 2 ^ 64}

def CPU.fetchOperandAddress (cpu : CPU) (addrMode : AddressingMode) : Nat × Bool :=
  match addrMode with
  | .implied => (0, false)
  | .accumulator => (0, false)
  | .immediate => ((cpu.PC + 1) % 65536, false)
  | .zeroPage => (cpu.Read ((cpu.PC + 1) % 65536), false)
  | .zeroPageX =>
      (((cpu.Read ((cpu.PC + 1) % 65536) + cpu.X) % 256) &&& 0x00FF, false)
  | .zeroPageY =>
      (((cpu.Read ((cpu.PC + 1) % 65536) + cpu.Y) % 256) &&& 0x00FF, false)
  | .relative =>
      let relAddr := cpu.Read ((cpu.PC + 1) % 65536)
      let relAddr := if relAddr &&& 0x80 ≠ 0 then relAddr ||| 0xFF00 else relAddr
      ((cpu.PC + 2 + relAddr) % 65536, false)
  | .absolute => (cpu.ReadWord ((cpu.PC + 1) % 65536), false)
  | .absoluteX =>
      let address := (cpu.ReadWord ((cpu.PC + 1) % 65536) + cpu.X) % 65536
      let pageCrossed := CPU.pageCrossed ((address + 65536 - cpu.X) % 65536) address
      (address, pageCrossed)
  | .absoluteY =>
      let address := (cpu.ReadWord ((cpu.PC + 1) % 65536) + cpu.Y) % 65536
      let pageCrossed := CPU.pageCrossed address ((address + 65536 - cpu.Y) % 65536)
      (address, pageCrossed)
  | .indirect =>
      let ptrAddr := cpu.ReadWord ((cpu.PC + 1) % 65536)
      (cpu.readWordbug ptrAddr, false)
  | .indirectX =>
      let ptrAddr := (cpu.Read ((cpu.PC + 1) % 65536) + cpu.X) &&& 0x00FF
      (cpu.readWordbug ptrAddr, false)
  | .indirectY =>
      let ptrAddr := cpu.Read ((cpu.PC + 1) % 65536)
      let address := (cpu.readWordbug ptrAddr + cpu.Y) % 65536
      let pageCrossed := CPU.pageCrossed address ((address + 65536 - cpu.Y) % 65536)
      (address, pageCrossed)

/-! ## Official opcodes (src/nes/cpu/cpu.go) -/

def adc (cpu : CPU) (args : OperationArgs) : CPU :=
  let operand := cpu.Read args.address
  let carryBit := Btou8 (cpu.getStatus StatusCarry)
  let result := cpu.A + operand + carryBit
  let overflowed := ((cpu.A ^^^ result) &&& ((cpu.A ^^^ operand) ^^^ 0xFFFF) &&& 0x0080) != 0
  let cpu := cpu.setStatus StatusOverflow overflowed
  let cpu := cpu.setStatus StatusCarry (result > 255)
  let cpu := cpu.setZN (result % 256)
  {cpu with A := result % 256}

def and (cpu : CPU) (args : OperationArgs) : CPU :=
  let cpu := {cpu with A := cpu.A &&& cpu.Read args.address}
  cpu.setZN cpu.A

def asl (cpu : CPU) (args : OperationArgs) : CPU :=
  if args.addrMode = .accumulator then
    let cpu := cpu.setStatus StatusCarry (cpu.A &&& 0x80 != 0)
    let cpu := {cpu with A := (cpu.A <<< 1) % 256}
    cpu.setZN cpu.A
  else
    let operand := cpu.Read args.address
    let cpu := cpu.setStatus StatusCarry (operand &&& 0x80 != 0)
    let operand := (operand <<< 1) % 256
    let cpu := cpu.setZN operand
    cpu.Write args.address operand

def bcc (cpu : CPU) (args : OperationArgs) : CPU :=
  let branched := !cpu.getStatus StatusCarry
  cpu.branch branched args.address

def bcs (cpu : CPU) (args : OperationArgs) : CPU :=
  let branched := cpu.getStatus StatusCarry
  cpu.branch branched args.address

def beq (cpu : CPU) (args : OperationArgs) : CPU :=
  let branched := cpu.getStatus StatusZero
  cpu.branch branched args.address

def bit (cpu : CPU) (args : OperationArgs) : CPU :=
  let operand := cpu.Read args.address
  let cpu := cpu.setZ (cpu.A &&& operand)
  let cpu := cpu.setStatus StatusOverflow (operand &&& (1 <<< 6) != 0)
  cpu.setStatus StatusNegative (operand &&& (1 <<< 7) != 0)

def bmi (cpu : CPU) (args : OperationArgs) : CPU :=
  let branched := cpu.getStatus StatusNegative
  cpu.branch branched args.address

def bne (cpu : CPU) (args : OperationArgs) : CPU :=
  let branched := !cpu.getStatus StatusZero
  cpu.branch branched args.address

def bpl (cpu : CPU) (args : OperationArgs) : CPU :=
  let branched := !cpu.getStatus StatusNegative
  cpu.branch branched args.address

def brk (cpu : CPU) (_args : OperationArgs) : CPU :=
  let cpu := cpu.pushWord cpu.PC
  let cpu := cpu.push (cpu.SR ||| StatusBreak ||| StatusUnused)
  let cpu := cpu.setStatus StatusInterrupt true
  {cpu with PC := cpu.ReadWord 0xFFFE}

def bvc (cpu : CPU) (args : OperationArgs) : CPU :=
  let branched := !cpu.getStatus StatusOverflow
  cpu.branch branched args.address

def bvs (cpu : CPU) (args : OperationArgs) : CPU :=
  let branched := cpu.getStatus StatusOverflow
  cpu.branch branched args.address

def clc (cpu : CPU) (_args : OperationArgs) : CPU :=
  cpu.setStatus StatusCarry false

def cld (cpu : CPU) (_args : OperationArgs) : CPU :=
  cpu.setStatus StatusDecimal false

def cli (cpu : CPU) (_args : OperationArgs) : CPU :=
  cpu.setStatus StatusInterrupt false

def clv (cpu : CPU) (_args : OperationArgs) : CPU :=
  cpu.setStatus StatusOverflow false

def cmp (cpu : CPU) (args : OperationArgs) : CPU :=
  let operand := cpu.Read args.address
  let cpu := cpu.setStatus StatusCarry (cpu.A ≥ operand)
  cpu.setZN ((cpu.A + 256 - operand) % 256)

def cpx (cpu : CPU) (args : OperationArgs) : CPU :=
  let operand := cpu.Read args.address
  let cpu := cpu.setStatus StatusCarry (cpu.X ≥ operand)
  cpu.setZN ((cpu.X + 256 - operand) % 256)

def cpy (cpu : CPU) (args : OperationArgs) : CPU :=
  let operand := cpu.Read args.address
  let cpu := cpu.setStatus StatusCarry (cpu.Y ≥ operand)
  cpu.setZN ((cpu.Y + 256 - operand) % 256)

def dec (cpu : CPU) (args : OperationArgs) : CPU :=
  let operand := (cpu.Read args.address + 255) % 256
  let cpu := cpu.Write args.address operand
  cpu.setZN operand

def dex (cpu : CPU) (_args : OperationArgs) : CPU :=
  let cpu := {cpu with X := (cpu.X + 255) % 256}
  cpu.setZN cpu.X

def dey (cpu : CPU) (_args : OperationArgs) : CPU :=
  let cpu := {cpu with Y := (cpu.Y + 255) % 256}
  cpu.setZN cpu.Y

def eor (cpu : CPU) (args : OperationArgs) : CPU :=
  let cpu := {cpu with A := cpu.A ^^^ cpu.Read args.address}
  cpu.setZN cpu.A

def inc (cpu : CPU) (args : OperationArgs) : CPU :=
  let operand := (cpu.Read args.address + 1) % 256
  let cpu := cpu.Write args.address operand
  cpu.setZN operand

def inx (cpu : CPU) (_args : OperationArgs) : CPU :=
  let cpu := {cpu with X := (cpu.X + 1) % 256}
  cpu.setZN cpu.X

def iny (cpu : CPU) (_args : OperationArgs) : CPU :=
  let cpu := {cpu with Y := (cpu.Y + 1) % 256}
  cpu.setZN cpu.Y

def jmp (cpu : CPU) (args : OperationArgs) : CPU :=
  {cpu with PC := args.address}

def jsr (cpu : CPU) (args : OperationArgs) : CPU :=
  let cpu := cpu.pushWord ((cpu.PC + 65536 - 1) % 65536)
  {cpu with PC := args.address}

def lda (cpu : CPU) (args : OperationArgs) : CPU :=
  let cpu := {cpu with A := cpu.Read args.address}
  cpu.setZN cpu.A

def ldx (cpu : CPU) (args : OperationArgs) : CPU :=
  let cpu := {cpu with X := cpu.Read args.address}
  cpu.setZN cpu.X

def ldy (cpu : CPU) (args : OperationArgs) : CPU :=
  let cpu := {cpu with Y := cpu.Read args.address}
  cpu.setZN cpu.Y

def lsr (cpu : CPU) (args : OperationArgs) : CPU :=
  if args.addrMode = .accumulator then
    let cpu := cpu.setStatus StatusCarry (cpu.A &&& 0x0001 != 0)
    let cpu := {cpu with A := cpu.A >>> 1}
    cpu.setZN cpu.A
  else
    let operand := cpu.Read args.address
    let cpu := cpu.setStatus StatusCarry (operand &&& 0x0001 != 0)
    let operand := operand >>> 1
    let cpu := cpu.setZN operand
    cpu.Write args.address operand

def nop (cpu : CPU) (_args : OperationArgs) : CPU :=
  cpu

def ora (cpu : CPU) (args : OperationArgs) : CPU :=
  let cpu := {cpu with A := cpu.A ||| cpu.Read args.address}
  cpu.setZN cpu.A

def pha (cpu : CPU) (_args : OperationArgs) : CPU :=
  cpu.push cpu.A

def php (cpu : CPU) (_args : OperationArgs) : CPU :=
  cpu.push (cpu.SR ||| StatusBreak ||| StatusUnused)

def pla (cpu : CPU) (_args : OperationArgs) : CPU :=
  let (value, cpu) := cpu.pop
  let cpu := {cpu with A := value}
  cpu.setZN cpu.A

def plp (cpu : CPU) (_args : OperationArgs) : CPU :=
  let (value, cpu) := cpu.pop
  let cpu := {cpu with SR := value}
  let cpu := cpu.setStatus StatusUnused true
  cpu.setStatus StatusBreak false

def rol (cpu : CPU) (args : OperationArgs) : CPU :=
  let carryBit := Btou8 (cpu.getStatus StatusCarry)
  if args.addrMode = .accumulator then
    let cpu := cpu.setStatus StatusCarry (cpu.A &&& 0x80 != 0)
    let cpu := {cpu with A := ((cpu.A <<< 1) % 256) ||| carryBit}
    cpu.setZN cpu.A
  else
    let operand := cpu.Read args.address
    let cpu := cpu.setStatus StatusCarry (operand &&& 0x80 != 0)
    let operand := ((operand <<< 1) % 256) ||| carryBit
    let cpu := cpu.setZN operand
    cpu.Write args.address operand

def ror (cpu : CPU) (args : OperationArgs) : CPU :=
  let carryBit := Btou8 (cpu.getStatus StatusCarry) <<< 7
  if args.addrMode = .accumulator then
    let cpu := cpu.setStatus StatusCarry (cpu.A &&& 0x0001 != 0)
    let cpu := {cpu with A := (cpu.A >>> 1) ||| carryBit}
    cpu.setZN cpu.A
  else
    let operand := cpu.Read args.address
    let cpu := cpu.setStatus StatusCarry (operand &&& 0x0001 != 0)
    let operand := (operand >>> 1) ||| carryBit
    let cpu := cpu.setZN operand
    cpu.Write args.address operand

def rti (cpu : CPU) (_args : OperationArgs) : CPU :=
  let (value, cpu) := cpu.pop
  let cpu := {cpu with SR := value}
  let cpu := cpu.setStatus StatusBreak false
  let cpu := cpu.setStatus StatusUnused true
  let (pc, cpu) := cpu.popWord
  {cpu with PC := pc}

def rts (cpu : CPU) (_args : OperationArgs) : CPU :=
  let (pc, cpu) := cpu.popWord
  {cpu with PC := (pc + 1) % 65536}

def sbc (cpu : CPU) (args : OperationArgs) : CPU :=
  let operand := cpu.Read args.address ^^^ 0x00FF
  let carryBit := Btou8 (cpu.getStatus StatusCarry)
  let result := cpu.A + operand + carryBit
  let overflowed := ((cpu.A ^^^ result) &&& ((cpu.A ^^^ operand) ^^^ 0xFFFF) &&& 0x0080) != 0
  let cpu := cpu.setStatus StatusOverflow overflowed
  let cpu := cpu.setStatus StatusCarry (result > 255)
  let cpu := cpu.setZN (result % 256)
  {cpu with A := result % 256}

def sec (cpu : CPU) (_args : OperationArgs) : CPU :=
  cpu.setStatus StatusCarry true

def sed (cpu : CPU) (_args : OperationArgs) : CPU :=
  cpu.setStatus StatusDecimal true

def sei (cpu : CPU) (_args : OperationArgs) : CPU :=
  cpu.setStatus StatusInterrupt true

def sta (cpu : CPU) (args : OperationArgs) : CPU :=
  cpu.Write args.address cpu.A

def stx (cpu : CPU) (args : OperationArgs) : CPU :=
  cpu.Write args.address cpu.X

def sty (cpu : CPU) (args : OperationArgs) : CPU :=
  cpu.Write args.address cpu.Y

def tax (cpu : CPU) (_args : OperationArgs) : CPU :=
  let cpu := {cpu with X := cpu.A}
  cpu.setZN cpu.X

def tay (cpu : CPU) (_args : OperationArgs) : CPU :=
  let cpu := {cpu with Y := cpu.A}
  cpu.setZN cpu.Y

def tsx (cpu : CPU) (_args : OperationArgs) : CPU :=
  let cpu := {cpu with X := cpu.SP}
  cpu.setZN cpu.X

def txa (cpu : CPU) (_args : OperationArgs) : CPU :=
  let cpu := {cpu with A := cpu.X}
  cpu.setZN cpu.A

def txs (cpu : CPU) (_args : OperationArgs) : CPU :=
  {cpu with SP := cpu.X}

def tya (cpu : CPU) (_args : OperationArgs) : CPU :=
  let cpu := {cpu with A := cpu.Y}
  cpu.setZN cpu.A

/-! ## Unofficial opcodes (src/nes/cpu/cpu.go) -/

def ahx (cpu : CPU) (args : OperationArgs) : CPU :=
  cpu.Write args.address (cpu.A &&& cpu.X &&& ((((args.address >>> 8) % 256) + 1) % 256))

def alr (cpu : CPU) (args : OperationArgs) : CPU :=
  let cpu := {cpu with A := cpu.Read args.address}
  let cpu := cpu.setStatus StatusCarry (cpu.A &&& 0x0001 != 0)
  let cpu := {cpu with A := cpu.A >>> 1}
  cpu.setZN cpu.A

def anc (cpu : CPU) (args : OperationArgs) : CPU :=
  let cpu := {cpu with A := cpu.A &&& cpu.Read args.address}
  let cpu := cpu.setZN cpu.A
  cpu.setStatus StatusCarry (cpu.getStatus StatusNegative)

def arr (cpu : CPU) (args : OperationArgs) : CPU :=
  let cpu := {cpu with A := cpu.A &&& cpu.Read args.address}
  let cpu := {cpu with A := (cpu.A >>> 1) ||| (((cpu.A &&& 0x0001) <<< 7) % 256)}
  let cpu := cpu.setZN cpu.A
  let carryBit := cpu.A &&& 0x20 != 0
  let cpu := cpu.setStatus StatusCarry carryBit
  let overflowBit := (((cpu.A &&& 0x20) >>> 5) ^^^ ((cpu.A &&& 0x10) >>> 4)) != 0
  cpu.setStatus StatusOverflow overflowBit

def axs (cpu : CPU) (args : OperationArgs) : CPU :=
  let operand := cpu.Read args.address
  let cpu := {cpu with X := cpu.X &&& cpu.A}
  let result := (cpu.X + 65536 - operand) % 65536
  let carryBit := result &&& 0xFF00 != 0
  let cpu := cpu.setStatus StatusCarry carryBit
  let cpu := cpu.setZN (result % 256)
  {cpu with X := result % 256}

def dcp (cpu : CPU) (args : OperationArgs) : CPU :=
  let operand := (cpu.Read args.address + 255) % 256
  let cpu := cpu.Write args.address operand
  let cpu := cpu.setStatus StatusCarry (cpu.A ≥ operand)
  cpu.setZN ((cpu.A + 256 - operand) % 256)

def isc (cpu : CPU) (args : OperationArgs) : CPU :=
  let operand := (cpu.Read args.address + 1) % 256
  let cpu := cpu.Write args.address operand
  let subtrahend := operand ^^^ 0x00FF
  let carryBit := Btou8 (cpu.getStatus StatusCarry)
  let result := cpu.A + subtrahend + carryBit
  let overflowed := ((cpu.A ^^^ result) &&& ((cpu.A ^^^ subtrahend) ^^^ 0xFFFF) &&& 0x0080) != 0
  let cpu := cpu.setStatus StatusOverflow overflowed
  let cpu := cpu.setStatus StatusCarry (result > 255)
  let cpu := cpu.setZN (result % 256)
  {cpu with A := result % 256}

def las (cpu : CPU) (args : OperationArgs) : CPU :=
  let cpu := {cpu with SP := cpu.SP &&& cpu.Read args.address}
  let cpu := {cpu with A := cpu.SP}
  {cpu with X := cpu.SP}

def lax (cpu : CPU) (args : OperationArgs) : CPU :=
  let cpu := {cpu with A := cpu.Read args.address}
  let cpu := {cpu with X := cpu.A}
  cpu.setZN cpu.A

def rla (cpu : CPU) (args : OperationArgs) : CPU :=
  let carryBit := Btou8 (cpu.getStatus StatusCarry)
  let operand := cpu.Read args.address
  let cpu := cpu.setStatus StatusCarry (operand &&& 0x80 != 0)
  let operand := ((operand <<< 1) % 256) ||| carryBit
  let cpu := cpu.Write args.address operand
  let cpu := {cpu with A := cpu.A &&& operand}
  cpu.setZN cpu.A

def rra (cpu : CPU) (args : OperationArgs) : CPU :=
  let carryBit := Btou8 (cpu.getStatus StatusCarry)
  let operand := cpu.Read args.address
  let cpu := cpu.setStatus StatusCarry (operand &&& 0x01 != 0)
  let operand := (operand >>> 1) ||| ((carryBit <<< 7) % 256)
  let cpu := cpu.Write args.address operand
  let result := cpu.A + operand + Btou8 (cpu.getStatus StatusCarry)
  let overflowed := ((cpu.A ^^^ result) &&& ((cpu.A ^^^ operand) ^^^ 0xFFFF) &&& 0x0080) != 0
  let cpu := cpu.setStatus StatusOverflow overflowed
  let cpu := cpu.setStatus StatusCarry (result > 255)
  let cpu := cpu.setZN (result % 256)
  {cpu with A := result % 256}

def sax (cpu : CPU) (args : OperationArgs) : CPU :=
  cpu.Write args.address (cpu.A &&& cpu.X)

def shx (cpu : CPU) (args : OperationArgs) : CPU :=
  cpu.Write args.address (cpu.X &&& ((((args.address >>> 8) % 256) + 1) % 256))

def shy (cpu : CPU) (args : OperationArgs) : CPU :=
  cpu.Write args.address (cpu.Y &&& ((((args.address >>> 8) % 256) + 1) % 256))

def slo (cpu : CPU) (args : OperationArgs) : CPU :=
  let operand := cpu.Read args.address
  let cpu := cpu.setStatus StatusCarry (operand &&& 0x80 != 0)
  let operand := (operand <<< 1) % 256
  let cpu := cpu.Write args.address operand
  let cpu := {cpu with A := cpu.A ||| operand}
  cpu.setZN cpu.A

def sre (cpu : CPU) (args : OperationArgs) : CPU :=
  let operand := cpu.Read args.address
  let cpu := cpu.setStatus StatusCarry (operand &&& 0x01 != 0)
  let operand := operand >>> 1
  let cpu := cpu.Write args.address operand
  let cpu := {cpu with A := cpu.A ^^^ operand}
  cpu.setZN cpu.A

def tas (cpu : CPU) (args : OperationArgs) : CPU :=
  let cpu := {cpu with SR := cpu.A &&& cpu.X}
  cpu.Write args.address (cpu.SR &&& ((((args.address >>> 8) % 256) + 1) % 256))

/-- Unimplemented operation function (`xxx` in the source). -/
def xxx (cpu : CPU) (_args : OperationArgs) : CPU :=
  cpu

/-! ## Instruction table (src/unnamed/part_001) and instruction cycle

The Go table stores a function pointer per row; the embedding stores an `Op`
tag and `runOp` maps each tag to the function of the same name. -/

inductive Op where
  | adc | and | asl | bcc | bcs | beq | bit | bmi | bne | bpl | brk | bvc | bvs
  | clc | cld | cli | clv | cmp | cpx | cpy | dec | dex | dey | eor | inc | inx
  | iny | jmp | jsr | lda | ldx | ldy | lsr | nop | ora | pha | php | pla | plp
  | rol | ror | rti | rts | sbc | sec | sed | sei | sta | stx | sty | tax | tay
  | tsx | txa | txs | tya
  | ahx | alr | anc | arr | axs | dcp | isc | las | lax | rla | rra | sax | shx
  | shy | slo | sre | tas | xxx
deriving DecidableEq

def runOp : Op → CPU → OperationArgs → CPU
  | .adc => adc
  | .and => Gonesem.and
  | .asl => asl
  | .bcc => bcc
  | .bcs => bcs
  | .beq => beq
  | .bit => bit
  | .bmi => bmi
  | .bne => bne
  | .bpl => bpl
  | .brk => brk
  | .bvc => bvc
  | .bvs => bvs
  | .clc => clc
  | .cld => cld
  | .cli => cli
  | .clv => clv
  | .cmp => cmp
  | .cpx => cpx
  | .cpy => cpy
  | .dec => Gonesem.dec
  | .dex => dex
  | .dey => dey
  | .eor => eor
  | .inc => inc
  | .inx => inx
  | .iny => iny
  | .jmp => jmp
  | .jsr => jsr
  | .lda => lda
  | .ldx => ldx
  | .ldy => ldy
  | .lsr => lsr
  | .nop => nop
  | .ora => ora
  | .pha => pha
  | .php => php
  | .pla => pla
  | .plp => plp
  | .rol => rol
  | .ror => ror
  | .rti => rti
  | .rts => rts
  | .sbc => sbc
  | .sec => sec
  | .sed => sed
  | .sei => sei
  | .sta => sta
  | .stx => stx
  | .sty => sty
  | .tax => tax
  | .tay => tay
  | .tsx => tsx
  | .txa => txa
  | .txs => txs
  | .tya => tya
  | .ahx => ahx
  | .alr => alr
  | .anc => anc
  | .arr => arr
  | .axs => axs
  | .dcp => dcp
  | .isc => isc
  | .las => las
  | .lax => lax
  | .rla => rla
  | .rra => rra
  | .sax => sax
  | .shx => shx
  | .shy => shy
  | .slo => slo
  | .sre => sre
  | .tas => tas
  | .xxx => xxx

/-- A row of the opcode table.  `op` stands for the Go row's function
pointer, `mode` for its `AddressingMode` field (renamed here because the
field and its type would share a name); the remaining fields keep the names
`CPU.Clock` reads them by. -/
structure Instruction where
  op : Op
  mode : AddressingMode
  Size : Nat
  Cycles : Nat
  AdditionalCycles : Nat
deriving DecidableEq

/-- Opcode table rows 0x00..0x0F. -/
def instrRows0 : List Instruction := [
  ⟨.brk, .implied, 1, 7, 0⟩,      -- 0x00 BRK
  ⟨.ora, .indirectX, 2, 6, 0⟩,    -- 0x01 ORA
  ⟨.nop, .implied, 1, 0, 0⟩,      -- 0x02 STP
  ⟨.slo, .indirectX, 2, 8, 0⟩,    -- 0x03 SLO
  ⟨.nop, .zeroPage, 2, 3, 0⟩,     -- 0x04 NOP
  ⟨.ora, .zeroPage, 2, 3, 0⟩,     -- 0x05 ORA
  ⟨.asl, .zeroPage, 2, 5, 0⟩,     -- 0x06 ASL
  ⟨.slo, .zeroPage, 2, 5, 0⟩,     -- 0x07 SLO
  ⟨.php, .implied, 1, 3, 0⟩,      -- 0x08 PHP
  ⟨.ora, .immediate, 2, 2, 0⟩,    -- 0x09 ORA
  ⟨.asl, .accumulator, 1, 2, 0⟩,  -- 0x0A ASL
  ⟨.anc, .immediate, 2, 2, 0⟩,    -- 0x0B ANC
  ⟨.nop, .absolute, 3, 4, 0⟩,     -- 0x0C NOP
  ⟨.ora, .absolute, 3, 4, 0⟩,     -- 0x0D ORA
  ⟨.asl, .absolute, 3, 6, 0⟩,     -- 0x0E ASL
  ⟨.slo, .absolute, 3, 6, 0⟩]     -- 0x0F SLO

/-- Opcode table rows 0x10..0x1F. -/
def instrRows1 : List Instruction := [
  ⟨.bpl, .relative, 2, 2, 0⟩,     -- 0x10 BPL
  ⟨.ora, .indirectY, 2, 5, 1⟩,    -- 0x11 ORA
  ⟨.nop, .implied, 1, 0, 0⟩,      -- 0x12 STP
  ⟨.slo, .indirectY, 2, 8, 0⟩,    -- 0x13 SLO
  ⟨.nop, .zeroPageX, 2, 4, 0⟩,    -- 0x14 NOP
  ⟨.ora, .zeroPageX, 2, 4, 0⟩,    -- 0x15 ORA
  ⟨.asl, .zeroPageX, 2, 6, 0⟩,    -- 0x16 ASL
  ⟨.slo, .zeroPageX, 2, 6, 0⟩,    -- 0x17 SLO
  ⟨.clc, .implied, 1, 2, 0⟩,      -- 0x18 CLC
  ⟨.ora, .absoluteY, 3, 4, 1⟩,    -- 0x19 ORA
  ⟨.nop, .implied, 1, 2, 0⟩,      -- 0x1A NOP
  ⟨.slo, .absoluteY, 3, 7, 0⟩,    -- 0x1B SLO
  ⟨.nop, .absoluteX, 3, 4, 1⟩,    -- 0x1C NOP
  ⟨.ora, .absoluteX, 3, 4, 1⟩,    -- 0x1D ORA
  ⟨.asl, .absoluteX, 3, 7, 0⟩,    -- 0x1E ASL
  ⟨.slo, .absoluteX, 3, 7, 0⟩]    -- 0x1F SLO

/-- Opcode table rows 0x20..0x2F. -/
def instrRows2 : List Instruction := [
  ⟨.jsr, .absolute, 3, 6, 0⟩,     -- 0x20 JSR
  ⟨.and, .indirectX, 2, 6, 0⟩,    -- 0x21 AND
  ⟨.nop, .implied, 1, 0, 0⟩,      -- 0x22 STP
  ⟨.rla, .indirectX, 2, 8, 0⟩,    -- 0x23 RLA
  ⟨.bit, .zeroPage, 2, 3, 0⟩,     -- 0x24 BIT
  ⟨.and, .zeroPage, 2, 3, 0⟩,     -- 0x25 AND
  ⟨.rol, .zeroPage, 2, 5, 0⟩,     -- 0x26 ROL
  ⟨.rla, .zeroPage, 2, 5, 0⟩,     -- 0x27 RLA
  ⟨.plp, .implied, 1, 4, 0⟩,      -- 0x28 PLP
  ⟨.and, .immediate, 2, 2, 0⟩,    -- 0x29 AND
  ⟨.rol, .accumulator, 1, 2, 0⟩,  -- 0x2A ROL
  ⟨.anc, .immediate, 2, 2, 0⟩,    -- 0x2B ANC
  ⟨.bit, .absolute, 3, 4, 0⟩,     -- 0x2C BIT
  ⟨.and, .absolute, 3, 4, 0⟩,     -- 0x2D AND
  ⟨.rol, .absolute, 3, 6, 0⟩,     -- 0x2E ROL
  ⟨.rla, .absolute, 3, 6, 0⟩]     -- 0x2F RLA

/-- Opcode table rows 0x30..0x3F. -/
def instrRows3 : List Instruction := [
  ⟨.bmi, .relative, 2, 2, 0⟩,     -- 0x30 BMI
  ⟨.and, .indirectY, 2, 5, 1⟩,    -- 0x31 AND
  ⟨.nop, .implied, 1, 0, 0⟩,      -- 0x32 STP
  ⟨.rla, .indirectY, 2, 8, 0⟩,    -- 0x33 RLA
  ⟨.nop, .zeroPageX, 2, 4, 0⟩,    -- 0x34 NOP
  ⟨.and, .zeroPageX, 2, 4, 0⟩,    -- 0x35 AND
  ⟨.rol, .zeroPageX, 2, 6, 0⟩,    -- 0x36 ROL
  ⟨.rla, .zeroPageX, 2, 6, 0⟩,    -- 0x37 RLA
  ⟨.sec, .implied, 1, 2, 0⟩,      -- 0x38 SEC
  ⟨.and, .absoluteY, 3, 4, 1⟩,    -- 0x39 AND
  ⟨.nop, .implied, 1, 2, 0⟩,      -- 0x3A NOP
  ⟨.rla, .absoluteY, 3, 7, 0⟩,    -- 0x3B RLA
  ⟨.nop, .absoluteX, 3, 4, 1⟩,    -- 0x3C NOP
  ⟨.and, .absoluteX, 3, 4, 1⟩,    -- 0x3D AND
  ⟨.rol, .absoluteX, 3, 7, 0⟩,    -- 0x3E ROL
  ⟨.rla, .absoluteX, 3, 7, 0⟩]    -- 0x3F RLA

/-- Opcode table rows 0x40..0x4F. -/
def instrRows4 : List Instruction := [
  ⟨.rti, .implied, 1, 6, 0⟩,      -- 0x40 RTI
  ⟨.eor, .indirectX, 2, 6, 0⟩,    -- 0x41 EOR
  ⟨.nop, .implied, 1, 0, 0⟩,      -- 0x42 STP
  ⟨.sre, .indirectX, 2, 8, 0⟩,    -- 0x43 SRE
  ⟨.nop, .zeroPage, 2, 3, 0⟩,     -- 0x44 NOP
  ⟨.eor, .zeroPage, 2, 3, 0⟩,     -- 0x45 EOR
  ⟨.lsr, .zeroPage, 2, 5, 0⟩,     -- 0x46 LSR
  ⟨.sre, .zeroPage, 2, 5, 0⟩,     -- 0x47 SRE
  ⟨.pha, .implied, 1, 3, 0⟩,      -- 0x48 PHA
  ⟨.eor, .immediate, 2, 2, 0⟩,    -- 0x49 EOR
  ⟨.lsr, .accumulator, 1, 2, 0⟩,  -- 0x4A LSR
  ⟨.alr, .immediate, 2, 2, 0⟩,    -- 0x4B ALR
  ⟨.jmp, .absolute, 3, 3, 0⟩,     -- 0x4C JMP
  ⟨.eor, .absolute, 3, 4, 0⟩,     -- 0x4D EOR
  ⟨.lsr, .absolute, 3, 6, 0⟩,     -- 0x4E LSR
  ⟨.sre, .absolute, 3, 6, 0⟩]     -- 0x4F SRE

/-- Opcode table rows 0x50..0x5F. -/
def instrRows5 : List Instruction := [
  ⟨.bvc, .relative, 2, 2, 0⟩,     -- 0x50 BVC
  ⟨.eor, .indirectY, 2, 5, 1⟩,    -- 0x51 EOR
  ⟨.nop, .implied, 1, 0, 0⟩,      -- 0x52 STP
  ⟨.sre, .indirectY, 2, 8, 0⟩,    -- 0x53 SRE
  ⟨.nop, .zeroPageX, 2, 4, 0⟩,    -- 0x54 NOP
  ⟨.eor, .zeroPageX, 2, 4, 0⟩,    -- 0x55 EOR
  ⟨.lsr, .zeroPageX, 2, 6, 0⟩,    -- 0x56 LSR
  ⟨.sre, .zeroPageX, 2, 6, 0⟩,    -- 0x57 SRE
  ⟨.cli, .implied, 1, 2, 0⟩,      -- 0x58 CLI
  ⟨.eor, .absoluteY, 3, 4, 1⟩,    -- 0x59 EOR
  ⟨.nop, .implied, 1, 2, 0⟩,      -- 0x5A NOP
  ⟨.sre, .absoluteY, 3, 7, 0⟩,    -- 0x5B SRE
  ⟨.nop, .absoluteX, 3, 4, 1⟩,    -- 0x5C NOP
  ⟨.eor, .absoluteX, 3, 4, 1⟩,    -- 0x5D EOR
  ⟨.lsr, .absoluteX, 3, 7, 0⟩,    -- 0x5E LSR
  ⟨.sre, .absoluteX, 3, 7, 0⟩]    -- 0x5F SRE

/-- Opcode table rows 0x60..0x6F. -/
def instrRows6 : List Instruction := [
  ⟨.rts, .implied, 1, 6, 0⟩,      -- 0x60 RTS
  ⟨.adc, .indirectX, 2, 6, 0⟩,    -- 0x61 ADC
  ⟨.nop, .implied, 1, 0, 0⟩,      -- 0x62 STP
  ⟨.rra, .indirectX, 2, 8, 0⟩,    -- 0x63 RRA
  ⟨.nop, .zeroPage, 2, 3, 0⟩,     -- 0x64 NOP
  ⟨.adc, .zeroPage, 2, 3, 0⟩,     -- 0x65 ADC
  ⟨.ror, .zeroPage, 2, 5, 0⟩,     -- 0x66 ROR
  ⟨.rra, .zeroPage, 2, 5, 0⟩,     -- 0x67 RRA
  ⟨.pla, .implied, 1, 4, 0⟩,      -- 0x68 PLA
  ⟨.adc, .immediate, 2, 2, 0⟩,    -- 0x69 ADC
  ⟨.ror, .accumulator, 1, 2, 0⟩,  -- 0x6A ROR
  ⟨.arr, .immediate, 2, 2, 0⟩,    -- 0x6B ARR
  ⟨.jmp, .indirect, 3, 5, 0⟩,     -- 0x6C JMP
  ⟨.adc, .absolute, 3, 4, 0⟩,     -- 0x6D ADC
  ⟨.ror, .absolute, 3, 6, 0⟩,     -- 0x6E ROR
  ⟨.rra, .absolute, 3, 6, 0⟩]     -- 0x6F RRA

/-- Opcode table rows 0x70..0x7F. -/
def instrRows7 : List Instruction := [
  ⟨.bvs, .relative, 2, 2, 0⟩,     -- 0x70 BVS
  ⟨.adc, .indirectY, 2, 5, 1⟩,    -- 0x71 ADC
  ⟨.nop, .implied, 1, 0, 0⟩,      -- 0x72 STP
  ⟨.rra, .indirectY, 2, 8, 0⟩,    -- 0x73 RRA
  ⟨.nop, .zeroPageX, 2, 4, 0⟩,    -- 0x74 NOP
  ⟨.adc, .zeroPageX, 2, 4, 0⟩,    -- 0x75 ADC
  ⟨.ror, .zeroPageX, 2, 6, 0⟩,    -- 0x76 ROR
  ⟨.rra, .zeroPageX, 2, 6, 0⟩,    -- 0x77 RRA
  ⟨.sei, .implied, 1, 2, 0⟩,      -- 0x78 SEI
  ⟨.adc, .absoluteY, 3, 4, 1⟩,    -- 0x79 ADC
  ⟨.nop, .implied, 1, 2, 0⟩,      -- 0x7A NOP
  ⟨.rra, .absoluteY, 3, 7, 0⟩,    -- 0x7B RRA
  ⟨.nop, .absoluteX, 3, 4, 1⟩,    -- 0x7C NOP
  ⟨.adc, .absoluteX, 3, 4, 1⟩,    -- 0x7D ADC
  ⟨.ror, .absoluteX, 3, 7, 0⟩,    -- 0x7E ROR
  ⟨.rra, .absoluteX, 3, 7, 0⟩]    -- 0x7F RRA

/-- Opcode table rows 0x80..0x8F. -/
def instrRows8 : List Instruction := [
  ⟨.nop, .immediate, 2, 2, 0⟩,    -- 0x80 NOP
  ⟨.sta, .indirectX, 2, 6, 0⟩,    -- 0x81 STA
  ⟨.nop, .immediate, 2, 2, 0⟩,    -- 0x82 NOP
  ⟨.sax, .indirectX, 2, 6, 0⟩,    -- 0x83 SAX
  ⟨.sty, .zeroPage, 2, 3, 0⟩,     -- 0x84 STY
  ⟨.sta, .zeroPage, 2, 3, 0⟩,     -- 0x85 STA
  ⟨.stx, .zeroPage, 2, 3, 0⟩,     -- 0x86 STX
  ⟨.sax, .zeroPage, 2, 3, 0⟩,     -- 0x87 SAX
  ⟨.dey, .implied, 1, 2, 0⟩,      -- 0x88 DEY
  ⟨.nop, .immediate, 2, 2, 0⟩,    -- 0x89 NOP
  ⟨.txa, .implied, 1, 2, 0⟩,      -- 0x8A TXA
  ⟨.xxx, .implied, 0, 0, 0⟩,      -- 0x8B XAA (unimplemented)
  ⟨.sty, .absolute, 3, 4, 0⟩,     -- 0x8C STY
  ⟨.sta, .absolute, 3, 4, 0⟩,     -- 0x8D STA
  ⟨.stx, .absolute, 3, 4, 0⟩,     -- 0x8E STX
  ⟨.sax, .absolute, 3, 4, 0⟩]     -- 0x8F SAX

/-- Opcode table rows 0x90..0x9F. -/
def instrRows9 : List Instruction := [
  ⟨.bcc, .relative, 2, 2, 0⟩,     -- 0x90 BCC
  ⟨.sta, .indirectY, 2, 6, 0⟩,    -- 0x91 STA
  ⟨.nop, .implied, 1, 0, 0⟩,      -- 0x92 STP
  ⟨.ahx, .indirectY, 2, 6, 0⟩,    -- 0x93 AHX
  ⟨.sty, .zeroPageX, 2, 4, 0⟩,    -- 0x94 STY
  ⟨.sta, .zeroPageX, 2, 4, 0⟩,    -- 0x95 STA
  ⟨.stx, .zeroPageY, 2, 4, 0⟩,    -- 0x96 STX
  ⟨.sax, .zeroPageY, 2, 4, 0⟩,    -- 0x97 SAX
  ⟨.tya, .implied, 1, 2, 0⟩,      -- 0x98 TYA
  ⟨.sta, .absoluteY, 3, 5, 0⟩,    -- 0x99 STA
  ⟨.txs, .implied, 1, 2, 0⟩,      -- 0x9A TXS
  ⟨.tas, .absoluteY, 3, 5, 0⟩,    -- 0x9B TAS
  ⟨.shy, .absoluteX, 3, 5, 0⟩,    -- 0x9C SHY
  ⟨.sta, .absoluteX, 3, 5, 0⟩,    -- 0x9D STA
  ⟨.shx, .absoluteY, 3, 5, 0⟩,    -- 0x9E SHX
  ⟨.ahx, .absoluteY, 3, 5, 0⟩]    -- 0x9F AHX

/-- Opcode table rows 0xA0..0xAF. -/
def instrRowsA : List Instruction := [
  ⟨.ldy, .immediate, 2, 2, 0⟩,    -- 0xA0 LDY
  ⟨.lda, .indirectX, 2, 6, 0⟩,    -- 0xA1 LDA
  ⟨.ldx, .immediate, 2, 2, 0⟩,    -- 0xA2 LDX
  ⟨.lax, .indirectX, 2, 6, 0⟩,    -- 0xA3 LAX
  ⟨.ldy, .zeroPage, 2, 3, 0⟩,     -- 0xA4 LDY
  ⟨.lda, .zeroPage, 2, 3, 0⟩,     -- 0xA5 LDA
  ⟨.ldx, .zeroPage, 2, 3, 0⟩,     -- 0xA6 LDX
  ⟨.lax, .zeroPage, 2, 3, 0⟩,     -- 0xA7 LAX
  ⟨.tay, .implied, 1, 2, 0⟩,      -- 0xA8 TAY
  ⟨.lda, .immediate, 2, 2, 0⟩,    -- 0xA9 LDA
  ⟨.tax, .implied, 1, 2, 0⟩,      -- 0xAA TAX
  ⟨.xxx, .immediate, 2, 2, 0⟩,    -- 0xAB LXA (unimplemented)
  ⟨.ldy, .absolute, 3, 4, 0⟩,     -- 0xAC LDY
  ⟨.lda, .absolute, 3, 4, 0⟩,     -- 0xAD LDA
  ⟨.ldx, .absolute, 3, 4, 0⟩,     -- 0xAE LDX
  ⟨.lax, .absolute, 3, 4, 0⟩]     -- 0xAF LAX

/-- Opcode table rows 0xB0..0xBF. -/
def instrRowsB : List Instruction := [
  ⟨.bcs, .relative, 2, 2, 0⟩,     -- 0xB0 BCS
  ⟨.lda, .indirectY, 2, 5, 1⟩,    -- 0xB1 LDA
  ⟨.nop, .implied, 1, 0, 0⟩,      -- 0xB2 STP
  ⟨.lax, .indirectY, 2, 5, 1⟩,    -- 0xB3 LAX
  ⟨.ldy, .zeroPageX, 2, 4, 0⟩,    -- 0xB4 LDY
  ⟨.lda, .zeroPageX, 2, 4, 0⟩,    -- 0xB5 LDA
  ⟨.ldx, .zeroPageY, 2, 4, 0⟩,    -- 0xB6 LDX
  ⟨.lax, .zeroPageY, 2, 4, 0⟩,    -- 0xB7 LAX
  ⟨.clv, .implied, 1, 2, 0⟩,      -- 0xB8 CLV
  ⟨.lda, .absoluteY, 3, 4, 1⟩,    -- 0xB9 LDA
  ⟨.tsx, .implied, 1, 2, 0⟩,      -- 0xBA TSX
  ⟨.las, .absoluteY, 3, 4, 1⟩,    -- 0xBB LAS
  ⟨.ldy, .absoluteX, 3, 4, 1⟩,    -- 0xBC LDY
  ⟨.lda, .absoluteX, 3, 4, 1⟩,    -- 0xBD LDA
  ⟨.ldx, .absoluteY, 3, 4, 1⟩,    -- 0xBE LDX
  ⟨.lax, .absoluteY, 3, 4, 1⟩]    -- 0xBF LAX

/-- Opcode table rows 0xC0..0xCF. -/
def instrRowsC : List Instruction := [
  ⟨.cpy, .immediate, 2, 2, 0⟩,    -- 0xC0 CPY
  ⟨.cmp, .indirectX, 2, 6, 0⟩,    -- 0xC1 CMP
  ⟨.nop, .immediate, 2, 2, 0⟩,    -- 0xC2 NOP
  ⟨.dcp, .indirectX, 2, 8, 1⟩,    -- 0xC3 DCP
  ⟨.cpy, .zeroPage, 2, 3, 0⟩,     -- 0xC4 CPY
  ⟨.cmp, .zeroPage, 2, 3, 0⟩,     -- 0xC5 CMP
  ⟨.dec, .zeroPage, 2, 5, 0⟩,     -- 0xC6 DEC
  ⟨.dcp, .zeroPage, 2, 5, 0⟩,     -- 0xC7 DCP
  ⟨.iny, .implied, 1, 2, 0⟩,      -- 0xC8 INY
  ⟨.cmp, .immediate, 2, 2, 0⟩,    -- 0xC9 CMP
  ⟨.dex, .implied, 1, 2, 0⟩,      -- 0xCA DEX
  ⟨.axs, .immediate, 2, 2, 0⟩,    -- 0xCB AXS
  ⟨.cpy, .absolute, 3, 4, 0⟩,     -- 0xCC CPY
  ⟨.cmp, .absolute, 3, 4, 0⟩,     -- 0xCD CMP
  ⟨.dec, .absolute, 3, 6, 0⟩,     -- 0xCE DEC
  ⟨.dcp, .absolute, 3, 6, 0⟩]     -- 0xCF DCP

/-- Opcode table rows 0xD0..0xDF. -/
def instrRowsD : List Instruction := [
  ⟨.bne, .relative, 2, 2, 0⟩,     -- 0xD0 BNE
  ⟨.cmp, .indirectY, 2, 5, 1⟩,    -- 0xD1 CMP
  ⟨.nop, .implied, 1, 0, 0⟩,      -- 0xD2 STP
  ⟨.dcp, .indirectY, 2, 8, 0⟩,    -- 0xD3 DCP
  ⟨.nop, .zeroPageX, 2, 4, 0⟩,    -- 0xD4 NOP
  ⟨.cmp, .zeroPageX, 2, 4, 0⟩,    -- 0xD5 CMP
  ⟨.dec, .zeroPageX, 2, 6, 0⟩,    -- 0xD6 DEC
  ⟨.dcp, .zeroPageX, 2, 6, 0⟩,    -- 0xD7 DCP
  ⟨.cld, .implied, 1, 2, 0⟩,      -- 0xD8 CLD
  ⟨.cmp, .absoluteY, 3, 4, 1⟩,    -- 0xD9 CMP
  ⟨.nop, .implied, 1, 2, 0⟩,      -- 0xDA NOP
  ⟨.dcp, .absoluteY, 3, 7, 0⟩,    -- 0xDB DCP
  ⟨.nop, .absoluteX, 3, 4, 1⟩,    -- 0xDC NOP
  ⟨.cmp, .absoluteX, 3, 4, 1⟩,    -- 0xDD CMP
  ⟨.dec, .absoluteX, 3, 7, 0⟩,    -- 0xDE DEC
  ⟨.dcp, .absoluteX, 3, 7, 0⟩]    -- 0xDF DCP

/-- Opcode table rows 0xE0..0xEF. -/
def instrRowsE : List Instruction := [
  ⟨.cpx, .immediate, 2, 2, 0⟩,    -- 0xE0 CPX
  ⟨.sbc, .indirectX, 2, 6, 0⟩,    -- 0xE1 SBC
  ⟨.nop, .immediate, 2, 2, 0⟩,    -- 0xE2 NOP
  ⟨.isc, .indirectX, 2, 8, 0⟩,    -- 0xE3 ISC
  ⟨.cpx, .zeroPage, 2, 3, 0⟩,     -- 0xE4 CPX
  ⟨.sbc, .zeroPage, 2, 3, 0⟩,     -- 0xE5 SBC
  ⟨.inc, .zeroPage, 2, 5, 0⟩,     -- 0xE6 INC
  ⟨.isc, .zeroPage, 2, 5, 0⟩,     -- 0xE7 ISC
  ⟨.inx, .implied, 1, 2, 0⟩,      -- 0xE8 INX
  ⟨.sbc, .immediate, 2, 2, 0⟩,    -- 0xE9 SBC
  ⟨.nop, .implied, 1, 2, 0⟩,      -- 0xEA NOP
  ⟨.sbc, .immediate, 2, 2, 0⟩,    -- 0xEB SBC
  ⟨.cpx, .absolute, 3, 4, 0⟩,     -- 0xEC CPX
  ⟨.sbc, .absolute, 3, 4, 0⟩,     -- 0xED SBC
  ⟨.inc, .absolute, 3, 6, 0⟩,     -- 0xEE INC
  ⟨.isc, .absolute, 3, 6, 0⟩]     -- 0xEF ISC

/-- Opcode table rows 0xF0..0xFF. -/
def instrRowsF : List Instruction := [
  ⟨.beq, .relative, 2, 2, 0⟩,     -- 0xF0 BEQ
  ⟨.sbc, .indirectY, 2, 5, 1⟩,    -- 0xF1 SBC
  ⟨.nop, .implied, 1, 0, 0⟩,      -- 0xF2 STP
  ⟨.isc, .indirectY, 2, 8, 0⟩,    -- 0xF3 ISC
  ⟨.nop, .zeroPageX, 2, 4, 0⟩,    -- 0xF4 NOP
  ⟨.sbc, .zeroPageX, 2, 4, 0⟩,    -- 0xF5 SBC
  ⟨.inc, .zeroPageX, 2, 6, 0⟩,    -- 0xF6 INC
  ⟨.isc, .zeroPageX, 2, 6, 0⟩,    -- 0xF7 ISC
  ⟨.sed, .implied, 1, 2, 0⟩,      -- 0xF8 SED
  ⟨.sbc, .absoluteY, 3, 4, 1⟩,    -- 0xF9 SBC
  ⟨.nop, .implied, 1, 2, 0⟩,      -- 0xFA NOP
  ⟨.isc, .absoluteY, 3, 7, 0⟩,    -- 0xFB ISC
  ⟨.nop, .absoluteX, 3, 4, 1⟩,    -- 0xFC NOP
  ⟨.sbc, .absoluteX, 3, 4, 1⟩,    -- 0xFD SBC
  ⟨.inc, .absoluteX, 3, 7, 0⟩,    -- 0xFE INC
  ⟨.isc, .absoluteX, 3, 7, 0⟩]    -- 0xFF ISC

/-- The 256-entry opcode table, concatenation of the 16 row blocks above
(mnemonic of each row in its comment). -/
def Instructions : List Instruction :=
  instrRows0 ++ instrRows1 ++ instrRows2 ++ instrRows3 ++ instrRows4 ++
  instrRows5 ++ instrRows6 ++ instrRows7 ++ instrRows8 ++ instrRows9 ++
  instrRowsA ++ instrRowsB ++ instrRowsC ++ instrRowsD ++ instrRowsE ++
  instrRowsF

/-- Table lookup; the Go index is a `uint8`, so the opcode is always in
range and the default row is never used. -/
def instrAt (opcode : Nat) : Instruction :=
  Instructions.getD opcode ⟨.xxx, .implied, 0, 0, 0⟩

/-- One call of the CPU clock (src/nes/cpu/cpu.go `CPU.Clock`): either burn a
stall cycle, or fetch, decode and execute a whole instruction. -/
def CPU.Clock (cpu : CPU) : CPU × Bool :=
  if cpu.cycles > 0 then
    let cpu := {cpu with cycles := cpu.cycles - 1}
    (cpu, decide (cpu.cycles ≤ 0))
  else
    let opcode := cpu.Read cpu.PC
    let instruction := instrAt opcode
    let (address, pageCrosed) := cpu.fetchOperandAddress instruction.mode
    let args : OperationArgs := ⟨instruction.mode, address⟩
    let cpu := {cpu with cycles := instruction.Cycles}
    let cpu :=
      if pageCrosed then
        {cpu with cycles := (cpu.cycles + instruction.AdditionalCycles) % 256}
      else
        cpu
    let cpu := {cpu with PC := (cpu.PC + instruction.Size) % 65536}
    let cpu := runOp instruction.op cpu args
    let cpu := {cpu with TotalCycles := (cpu.TotalCycles + cpu.cycles) % 2 ^ 64}
    let cpu := {cpu with cycles := (cpu.cycles + 255) % 256}
    (cpu, false)

/-- Iterated CPU clocking (the state part only). -/
def CPU.clockN (n : Nat) (cpu : CPU) : CPU :=
  (fun s => (CPU.Clock s).1)^[n] cpu

/-! ## Cartridge and mapper (src/unnamed/part_008, part_004, part_002) -/

structure Cartridge where
  pgrBanks : Nat
  chrBanks : Nat
  mirrorMode : Nat
  pgrMemory : List Nat
  chrMemory : List Nat

def Mapper000.PGRRead (cartridge : Cartridge) (addr : Nat) : Nat :=
  if 0x8000 ≤ addr ∧ addr ≤ 0xFFFF then
    cartridge.pgrMemory.getD (addr % cartridge.pgrMemory.length) 0 % 256
  else
    0

/-- Mapper000 PRG rom only, no writing. -/
def Mapper000.PRGWrite (cartridge : Cartridge) (_addr _value : Nat) : Cartridge :=
  cartridge

def Mapper000.CHRRead (cartridge : Cartridge) (addr : Nat) : Nat :=
  if addr ≤ 0x1FFF then
    cartridge.chrMemory.getD addr 0 % 256
  else
    0

/-- Mapper000 CHR rom only, no writing. -/
def Mapper000.CHRWrite (cartridge : Cartridge) (_addr _value : Nat) : Cartridge :=
  cartridge

def Cartridge.PRGRead (cartridge : Cartridge) (addr : Nat) : Nat :=
  Mapper000.PGRRead cartridge addr

def Cartridge.PRGWrite (cartridge : Cartridge) (addr value : Nat) : Cartridge :=
  Mapper000.PRGWrite cartridge addr value

def Cartridge.CHRRead (cartridge : Cartridge) (addr : Nat) : Nat :=
  Mapper000.CHRRead cartridge addr

def Cartridge.CHRWrite (cartridge : Cartridge) (addr value : Nat) : Cartridge :=
  Mapper000.CHRWrite cartridge addr value

/-- iNES header, filled from the first 16 bytes of the ROM file in field
order, as `binary.Read` does with the Go struct. -/
structure Header where
  PRGSize : Nat
  CHRSize : Nat
  Mapper1 : Nat
  Mapper2 : Nat
deriving DecidableEq

def headerOfBytes (data : List Nat) : Header :=
  ⟨data.getD 4 0 % 256, data.getD 5 0 % 256, data.getD 6 0 % 256, data.getD 7 0 % 256⟩

/-- Mapper ID derivation in `NewCartridge` (src/unnamed/part_008 line 49):
`(header.Mapper1 & 0xF0) | header.Mapper2 >> 4`. -/
def mapperIDOfFlags (flags1 flags2 : Nat) : Nat :=
  (flags1 &&& 0xF0) ||| (flags2 >>> 4)

/-- Modelled from the spec (section 6.1): byte 6 bits 4 to 7 are the mapper ID
low nibble and byte 7 bits 4 to 7 the mapper ID high nibble.  Used only to
compare the source derivation against the documented iNES layout. -/
def specMapperIDOfFlags (flags1 flags2 : Nat) : Nat :=
  (flags1 >>> 4) ||| (flags2 &&& 0xF0)

/-- `NewMapper` (src/unnamed/part_004): mapper 0 is the only supported mapper;
`none` models the Go panic on any other ID. -/
def NewMapper (mapperID : Nat) : Option Unit :=
  if mapperID = 0 then some () else none

/-- `NewCartridge` (src/unnamed/part_008) over the ROM file bytes; `Except`
models the error returns and the `NewMapper` panic. -/
def NewCartridge (rom : List Nat) : Except Unit Cartridge :=
  if rom.length < 16 then .error () else
  let header := headerOfBytes rom
  let mapperID := mapperIDOfFlags header.Mapper1 header.Mapper2
  let hasTrainer := (header.Mapper1 >>> 2) &&& 0x01 ≠ 0
  match NewMapper mapperID with
  | none => .error ()
  | some _ =>
    let trainerOffset := if hasTrainer then 512 else 0
    let pgrStart := 16 + trainerOffset
    let pgrLen := header.PRGSize * 16384
    let chrStart := pgrStart + pgrLen
    let chrLen := header.CHRSize * 8192
    if rom.length < chrStart + chrLen then .error ()
    else .ok ⟨header.PRGSize, header.CHRSize, 0,
              (rom.drop pgrStart).take pgrLen, (rom.drop chrStart).take chrLen⟩

/-! ## PPU (src/unnamed/part_003 with the register helpers of
src/nes/ppu/registers.go) -/

def CtrlIncrementMode : Nat := 4
def CtrlGenerateNMI : Nat := 128

def StatusOpenBus : Nat := 32
def StatusSpriteZeroHit : Nat := 64
def StatusVerticalBlank : Nat := 128

structure PPU where
  ctrl : Nat
  mask : Nat
  status : Nat
  scanline : Int
  cycle : Int
  memoryAddress : Nat
  addressLatch : Bool
  dataBuffer : Nat
  EmitNMI : Bool
  nameTable : Nat → Nat
  paletteTable : Nat → Nat
  cartridge : Cartridge

def NewPPU (cartridge : Cartridge) : PPU :=
  { ctrl := 0, mask := 0, status := 0, scanline := 0, cycle := 0
    memoryAddress := 0, addressLatch := false, dataBuffer := 0, EmitNMI := false
    nameTable := fun _ => 0, paletteTable := fun _ => 0, cartridge := cartridge }

def PPU.setStatus (ppu : PPU) (status : Nat) (value : Bool) : PPU :=
  if value then
    {ppu with status := ppu.status ||| status}
  else
    {ppu with status := ppu.status &&& (status ^^^ 0xFF)}

def PPU.getStatus (ppu : PPU) (status : Nat) : Bool :=
  ppu.status &&& status != 0

def PPU.getCtrl (ppu : PPU) (ctrl : Nat) : Bool :=
  ppu.ctrl &&& ctrl != 0

def PPU.readMemory (ppu : PPU) (addr : Nat) : Nat :=
  if addr ≤ 0x1FFF then
    ppu.cartridge.CHRRead addr
  else if 0x2000 ≤ addr ∧ addr ≤ 0x3EFF then
    ppu.nameTable (addr % 2048) % 256
  else if 0x3F00 ≤ addr ∧ addr ≤ 0x3FFF then
    let addr := (addr - 0x3F00) % 32
    let addr :=
      if addr = 0x0010 ∨ addr = 0x0014 ∨ addr = 0x0018 ∨ addr = 0x001C then
        addr - 0x0010
      else
        addr
    ppu.paletteTable addr % 256
  else
    0

def PPU.writeMemory (ppu : PPU) (addr value : Nat) : PPU :=
  if addr ≤ 0x1FFF then
    {ppu with cartridge := ppu.cartridge.CHRWrite addr value}
  else if 0x2000 ≤ addr ∧ addr ≤ 0x3EFF then
    {ppu with nameTable := fun a => if a = addr % 2048 then value % 256 else ppu.nameTable a}
  else if 0x3F00 ≤ addr ∧ addr ≤ 0x3FFF then
    let addr := (addr - 0x3F00) % 32
    let addr :=
      if addr = 0x0010 ∨ addr = 0x0014 ∨ addr = 0x0018 ∨ addr = 0x001C then
        addr - 0x0010
      else
        addr
    {ppu with paletteTable := fun a => if a = addr then value % 256 else ppu.paletteTable a}
  else
    ppu

/-- CPU-facing register read (src/unnamed/part_003 `PPU.Read`); returns the
read value and the possibly mutated PPU. -/
def PPU.Read (ppu : PPU) (addr : Nat) : Nat × PPU :=
  match addr with
  | 2 =>
      let value := (ppu.status &&& 0xE0) ||| (ppu.dataBuffer &&& 0x1F)
      let ppu := ppu.setStatus StatusVerticalBlank false
      let ppu := {ppu with addressLatch := false}
      (value, ppu)
  | 7 =>
      let value := ppu.dataBuffer
      let ppu := {ppu with dataBuffer := ppu.readMemory ppu.memoryAddress}
      let value := if ppu.memoryAddress > 0x3F00 then ppu.dataBuffer else value
      let ppu := {ppu with memoryAddress := (ppu.memoryAddress + 1) % 65536}
      (value, ppu)
  | _ => (0, ppu)

/-- CPU-facing register write (src/unnamed/part_003 `PPU.Write`). -/
def PPU.Write (ppu : PPU) (addr value : Nat) : PPU :=
  match addr with
  | 0 => {ppu with ctrl := value % 256}
  | 1 => {ppu with mask := value % 256}
  | 6 =>
      if !ppu.addressLatch then
        {ppu with
          memoryAddress := (ppu.memoryAddress &&& 0x00FF) ||| (((value % 256) <<< 8) % 65536)
          addressLatch := true}
      else
        {ppu with
          memoryAddress := (ppu.memoryAddress &&& 0xFF00) ||| (value % 256)
          addressLatch := false}
  | 7 =>
      let ppu := ppu.writeMemory ppu.memoryAddress value
      {ppu with memoryAddress := (ppu.memoryAddress + 1) % 65536}
  | _ => ppu

def PPU.Clock (ppu : PPU) : PPU :=
  let ppu :=
    if ppu.scanline = -1 ∧ ppu.cycle = 1 then
      ppu.setStatus StatusVerticalBlank false
    else
      ppu
  if ppu.scanline = 241 ∧ ppu.cycle = 1 then
    let ppu := ppu.setStatus StatusVerticalBlank true
    if ppu.getCtrl CtrlGenerateNMI then {ppu with EmitNMI := true} else ppu
  else
    ppu

/-! ## NES system (src/nes/nes.go)

The fields `ppuClocks`, `cpuClocks` and `trace` are ghost instrumentation not
present in the source: they count the `ppu.Clock`, `cpu.Clock` and `cpu.NMI`
invocations made by `NES.Clock` and record their order, and nothing else in
the embedding reads them. -/

inductive Ev where
  | ppu
  | cpu
  | nmi
deriving DecidableEq

structure NES where
  cpu : CPU
  ppu : PPU
  cartridge : Cartridge
  ram : Nat → Nat
  TotalCycles : Nat
  ppuClocks : Nat
  cpuClocks : Nat
  trace : List Ev

def NewNES (cartridge : Cartridge) : NES :=
  { cpu := NewCPU fun _ => 0, ppu := NewPPU cartridge, cartridge := cartridge
    ram := fun _ => 0, TotalCycles := 0
    ppuClocks := 0, cpuClocks := 0, trace := [] }

def NES.Read (nes : NES) (addr : Nat) : Nat × NES :=
  if addr ≤ 0x1FFF then
    (nes.ram (addr % 0x0800) % 256, nes)
  else if 0x2000 ≤ addr ∧ addr ≤ 0x3FFF then
    let (value, ppu) := nes.ppu.Read (addr % 0x0008)
    (value, {nes with ppu := ppu})
  else
    (nes.cartridge.PRGRead addr, nes)

def NES.Write (nes : NES) (addr value : Nat) : NES :=
  if addr ≤ 0x1FFF then
    {nes with ram := fun a => if a = addr % 0x0800 then value % 256 else nes.ram a}
  else if 0x2000 ≤ addr ∧ addr ≤ 0x3FFF then
    {nes with ppu := nes.ppu.Write (addr % 0x0008) value}
  else
    {nes with cartridge := nes.cartridge.PRGWrite addr value}

/-- One master tick of the System Clock (src/nes/nes.go `NES.Clock`). -/
def NES.Clock (nes : NES) : NES :=
  let nes := {nes with
    ppu := nes.ppu.Clock
    ppuClocks := nes.ppuClocks + 1
    trace := nes.trace ++ [Ev.ppu]}
  let nes :=
    if nes.TotalCycles % 3 = 0 then
      {nes with
        cpu := (nes.cpu.Clock).1
        cpuClocks := nes.cpuClocks + 1
        trace := nes.trace ++ [Ev.cpu]}
    else
      nes
  let nes :=
    if nes.ppu.EmitNMI then
      {nes with
        cpu := nes.cpu.NMI
        ppu := {nes.ppu with EmitNMI := false}
        trace := nes.trace ++ [Ev.nmi]}
    else
      nes
  {nes with TotalCycles := (nes.TotalCycles + 1) % 2 ^ 64}

/-! ## Color palette loaders

`NewColorPalette` embeds src/unnamed/part_007; `NewColorPaletteOld` embeds the
revision src/nes/color/color.go.  The input is the palette file contents as a
byte list; `Except` models the error returns, and in the old revision also the
out-of-range slice index panic of its copy loop. -/

structure RGBA where
  R : Nat
  G : Nat
  B : Nat
  A : Nat
deriving DecidableEq

/-- The copy loop of part_007: `for i := 0; i < len(src); i += 3`,
writing `paletteColors[i/3] = RGBA{src[i], src[i+1], src[i+2], 0xFF}`.
The structural `fuel` argument only bounds the iteration count (the loop
advances `i` by 3 each pass, so `src.length` passes always suffice); the
loop itself stops exactly when `i < len(src)` fails, as in the source. -/
def populateColors (src : List Nat) (fuel : Nat) (colors : Nat → RGBA) (i : Nat) :
    Nat → RGBA :=
  match fuel with
  | 0 => colors
  | fuel + 1 =>
      if i < src.length then
        populateColors src fuel
          (fun j => if j = i / 3 then
              ⟨src.getD i 0 % 256, src.getD (i + 1) 0 % 256, src.getD (i + 2) 0 % 256, 0xFF⟩
            else colors j)
          (i + 3)
      else
        colors

def NewColorPalette (data : List Nat) : Except Unit (Nat → RGBA) :=
  if data.length ≠ 192 then .error ()
  else .ok (populateColors data data.length (fun _ => ⟨0, 0, 0, 0⟩) 0)

/-- The copy loop of the src/nes/color/color.go revision: writes
`paletteColors[i]` (not `i/3`) and reads `src[i+1]`, `src[i+2]` without a
bounds guard; `.error` models the index-out-of-range panic those reads hit
when `i + 2 ≥ len(src)`.  `fuel` bounds iterations as in `populateColors`. -/
def populateColorsOld (src : List Nat) (fuel : Nat) (colors : Nat → RGBA) (i : Nat) :
    Except Unit (Nat → RGBA) :=
  match fuel with
  | 0 => .ok colors
  | fuel + 1 =>
      if i < src.length then
        if i + 2 < src.length then
          populateColorsOld src fuel
            (fun j => if j = i then
                ⟨src.getD i 0 % 256, src.getD (i + 1) 0 % 256, src.getD (i + 2) 0 % 256, 0xFF⟩
              else colors j)
            (i + 3)
        else
          .error ()
      else
        .ok colors

def NewColorPaletteOld (data : List Nat) : Except Unit (Nat → RGBA) :=
  if data.length ≠ 64 then .error ()
  else populateColorsOld data data.length (fun _ => ⟨0, 0, 0, 0⟩) 0

/-- Extracts the palette entry at an index from a loader result (zero entry
on the error side). -/
def paletteEntry (result : Except Unit (Nat → RGBA)) (i : Nat) : RGBA :=
  match result with
  | .ok colors => colors i
  | .error _ => ⟨0, 0, 0, 0⟩

/-- Success observer for loader results. -/
def exceptOk {α : Type} (result : Except Unit α) : Bool :=
  match result with
  | .ok _ => true
  | .error _ => false

/-! ## Definitions used only to state the claims -/

/-- Modelled from the spec: the overflow formula
`((~(A ^ M)) & (A ^ result) & 0x80) != 0`, read over bytes (8-bit complement,
8-bit result).  Used to compare the source computation against the spec. -/
def overflowFormula (a m r : Nat) : Bool :=
  ((a ^^^ m) ^^^ 0xFF) &&& (a ^^^ r % 256) &&& 0x80 != 0

/-- The live-status invariant of C9: the register is a byte with U set and B
clear. -/
def SRinvariant (p : Nat) : Prop := p < 256 ∧ p &&& 0x30 = 0x20

/-- An operation body preserves the live-status invariant. -/
def opPreservesSR (f : CPU → OperationArgs → CPU) : Prop :=
  ∀ (cpu : CPU) (args : OperationArgs), SRinvariant cpu.SR → SRinvariant ((f cpu args).SR)

/-- The ghost event list `N` master ticks are expected to produce: one PPU
step per tick, followed by a CPU step on ticks 0, 3, 6, and so on. -/
def c1Events (N : Nat) : List Ev :=
  (List.range N).flatMap fun t => Ev.ppu :: (if t % 3 = 0 then [Ev.cpu] else [])

/-- An empty mapper-0 cartridge used for the concrete system-level runs. -/
def cart0 : Cartridge := ⟨0, 0, 0, [], []⟩

/-- Concrete CPU for the C2 scenario: an arbitrary in-range state. -/
def c2cpu : CPU :=
  ⟨0, 0, 0, 0x8000, 0xFD, 0x24, 0, 0, fun a => if a = 0xFFFA then 0x40 else if a = 0xFFFB then 0x80 else 0⟩

/-- Memory for the C3 scenario: `BEQ +2` at 0x00FE. -/
def c3ram : Nat → Nat := fun a =>
  if a = 0x00FE then 0xF0 else if a = 0x00FF then 0x02 else 0

/-- Concrete CPU for the C3 scenario: PC = 0x00FE, Z set, mid-page stack. -/
def c3cpu : CPU := ⟨0, 0, 0, 0x00FE, 0xFD, 0x26, 0, 0, c3ram⟩

/-- Memory for the C5 scenario: `JMP ($02FF)` at 0x0400, pointer bytes
0x29/0x11 at 0x02FF/0x0300 and 0xFF at 0x0200. -/
def c5ram : Nat → Nat := fun a =>
  if a = 0x0400 then 0x6C else if a = 0x0401 then 0xFF else if a = 0x0402 then 0x02
  else if a = 0x02FF then 0x29 else if a = 0x0300 then 0x11
  else if a = 0x0200 then 0xFF else 0

/-- Concrete CPU for the C5 scenario. -/
def c5cpu : CPU := ⟨0, 0, 0, 0x0400, 0xFD, 0x24, 0, 0, c5ram⟩

/-- Memory for the C9 counterexample: reset vector 0x0600, then
`LDA #$10; TAX; TAS $0000,Y`. -/
def c9ram : Nat → Nat := fun a =>
  if a = 0xFFFC then 0x00 else if a = 0xFFFD then 0x06
  else if a = 0x0600 then 0xA9 else if a = 0x0601 then 0x10
  else if a = 0x0602 then 0xAA else if a = 0x0603 then 0x9B else 0

/-- A 192-byte palette file whose byte at offset `k` is `k`. -/
def palBytes : List Nat := List.range 192

/-- A 16-byte iNES header: magic, 1 PRG bank, 1 CHR bank, flags1 = 0x10
(mapper low nibble 1 per the iNES layout), flags2 = 0x00. -/
def c7rom : List Nat :=
  [0x4E, 0x45, 0x53, 0x1A, 0, 0, 0x10, 0x00, 0, 0, 0, 0, 0, 0, 0, 0]


/-! ## Generic bitwise lemmas used throughout the proofs -/

set_option maxRecDepth 16000

theorem or_and_mask (x f s : Nat) (h : f &&& s = 0) : (x ||| f) &&& s = x &&& s := by
  apply Nat.eq_of_testBit_eq
  intro i
  have hi : (f.testBit i && s.testBit i) = false := by
    rw [← Nat.testBit_and, h, Nat.zero_testBit]
  simp only [Nat.testBit_and, Nat.testBit_or]
  cases hf : f.testBit i <;> cases hs : s.testBit i <;> simp_all

theorem and_and_mask (x m s : Nat) (h : m &&& s = s) : (x &&& m) &&& s = x &&& s := by
  apply Nat.eq_of_testBit_eq
  intro i
  have hi : (m.testBit i && s.testBit i) = s.testBit i := by
    rw [← Nat.testBit_and, h]
  simp only [Nat.testBit_and]
  cases hm : m.testBit i <;> cases hs : s.testBit i <;> simp_all

theorem or_and_self (x f : Nat) : (x ||| f) &&& f = f := by
  apply Nat.eq_of_testBit_eq
  intro i
  simp only [Nat.testBit_and, Nat.testBit_or]
  cases f.testBit i <;> cases x.testBit i <;> rfl

theorem testBit_255 (i : Nat) (h : i < 8) : (0xFF : Nat).testBit i = true := by
  interval_cases i <;> decide

theorem testBit_false_of_lt_256 {f : Nat} (hf : f < 256) {i : Nat} (hi : 8 ≤ i) :
    f.testBit i = false := by
  apply Nat.testBit_lt_two_pow
  calc f < 256 := hf
    _ = 2 ^ 8 := by norm_num
    _ ≤ 2 ^ i := Nat.pow_le_pow_right (by norm_num) hi

theorem andNot_and_self (x f : Nat) (hf : f < 256) : (x &&& (f ^^^ 0xFF)) &&& f = 0 := by
  apply Nat.eq_of_testBit_eq
  intro i
  simp only [Nat.testBit_and, Nat.testBit_xor, Nat.zero_testBit]
  by_cases hi : i < 8
  · rw [testBit_255 i hi]
    cases f.testBit i <;> cases x.testBit i <;> rfl
  · rw [testBit_false_of_lt_256 hf (le_of_not_lt hi)]
    simp

theorem and128_ne (x : Nat) : (x &&& 0x80 != 0) = x.testBit 7 := by
  have h : x &&& 0x80 = (x.testBit 7).toNat * 128 := by
    simpa using Nat.and_two_pow x 7
  rw [h]
  cases ht : x.testBit 7 <;> simp

theorem overflow_bits_eq (a m r : Nat) :
    ((a ^^^ r) &&& ((a ^^^ m) ^^^ 0xFFFF) &&& 0x0080 != 0) =
      (((a ^^^ m) ^^^ 0xFF) &&& (a ^^^ r % 256) &&& 0x80 != 0) := by
  rw [show (0x0080 : Nat) = 0x80 from rfl]
  rw [and128_ne, and128_ne]
  simp only [Nat.testBit_and, Nat.testBit_xor]
  have hmod : (r % 256).testBit 7 = r.testBit 7 := by
    have h := Nat.testBit_mod_two_pow r 8 7
    norm_num at h
    exact h
  rw [hmod, show ((0xFF : Nat).testBit 7) = true from by decide,
    show ((0xFFFF : Nat).testBit 7) = true from by decide]
  cases a.testBit 7 <;> cases m.testBit 7 <;> cases r.testBit 7 <;> rfl

theorem getStatus_congr {s t : CPU} (f : Nat) (h : s.SR = t.SR) :
    s.getStatus f = t.getStatus f := by
  unfold CPU.getStatus
  rw [h]

theorem getStatus_set_other (cpu : CPU) (f g : Nat) (b : Bool)
    (h1 : g &&& f = 0) (h2 : (g ^^^ 0xFF) &&& f = f) :
    (cpu.setStatus g b).getStatus f = cpu.getStatus f := by
  unfold CPU.setStatus CPU.getStatus
  cases b
  · simp only [Bool.false_eq_true, if_false]
    rw [and_and_mask _ _ _ h2]
  · simp only [if_true]
    rw [or_and_mask _ _ _ h1]

theorem getStatus_set_self (cpu : CPU) (f : Nat) (b : Bool) (h0 : f ≠ 0) (hf : f < 256) :
    (cpu.setStatus f b).getStatus f = b := by
  unfold CPU.setStatus CPU.getStatus
  cases b
  · simp only [Bool.false_eq_true, if_false]
    rw [andNot_and_self _ _ hf]
    simp
  · simp only [if_true]
    rw [or_and_self]
    simpa using h0

theorem getStatus_setZN_other (cpu : CPU) (v f : Nat)
    (hz1 : StatusZero &&& f = 0) (hz2 : (StatusZero ^^^ 0xFF) &&& f = f)
    (hn1 : StatusNegative &&& f = 0) (hn2 : (StatusNegative ^^^ 0xFF) &&& f = f) :
    (cpu.setZN v).getStatus f = cpu.getStatus f := by
  unfold CPU.setZN CPU.setZ CPU.setN
  split_ifs <;>
    rw [getStatus_set_other _ _ _ _ hn1 hn2, getStatus_set_other _ _ _ _ hz1 hz2]

-- now the V flag of adc
theorem getStatusV_adc (cpu : CPU) (args : OperationArgs) :
    (adc cpu args).getStatus StatusOverflow =
      ((cpu.A ^^^ (cpu.A + cpu.Read args.address + Btou8 (cpu.getStatus StatusCarry))) &&&
        ((cpu.A ^^^ cpu.Read args.address) ^^^ 0xFFFF) &&& 0x0080 != 0) := by
  have hSR : (adc cpu args).SR =
      ((((cpu.setStatus StatusOverflow
        ((cpu.A ^^^ (cpu.A + cpu.Read args.address + Btou8 (cpu.getStatus StatusCarry))) &&&
          ((cpu.A ^^^ cpu.Read args.address) ^^^ 0xFFFF) &&& 0x0080 != 0)).setStatus StatusCarry
            (decide (cpu.A + cpu.Read args.address + Btou8 (cpu.getStatus StatusCarry) > 255))).setZN
            ((cpu.A + cpu.Read args.address + Btou8 (cpu.getStatus StatusCarry)) % 256))).SR := rfl
  rw [getStatus_congr StatusOverflow hSR]
  rw [getStatus_setZN_other _ _ _ (by decide) (by decide) (by decide) (by decide)]
  rw [getStatus_set_other _ _ _ _ (by decide) (by decide)]
  rw [getStatus_set_self _ _ _ (by decide) (by decide)]



theorem getStatusV_sbc (cpu : CPU) (args : OperationArgs) :
    (sbc cpu args).getStatus StatusOverflow =
      ((cpu.A ^^^ (cpu.A + (cpu.Read args.address ^^^ 0x00FF) + Btou8 (cpu.getStatus StatusCarry))) &&&
        ((cpu.A ^^^ (cpu.Read args.address ^^^ 0x00FF)) ^^^ 0xFFFF) &&& 0x0080 != 0) := by
  have hSR : (sbc cpu args).SR =
      ((((cpu.setStatus StatusOverflow
        ((cpu.A ^^^ (cpu.A + (cpu.Read args.address ^^^ 0x00FF) + Btou8 (cpu.getStatus StatusCarry))) &&&
          ((cpu.A ^^^ (cpu.Read args.address ^^^ 0x00FF)) ^^^ 0xFFFF) &&& 0x0080 != 0)).setStatus StatusCarry
            (decide (cpu.A + (cpu.Read args.address ^^^ 0x00FF) + Btou8 (cpu.getStatus StatusCarry) > 255))).setZN
            ((cpu.A + (cpu.Read args.address ^^^ 0x00FF) + Btou8 (cpu.getStatus StatusCarry)) % 256))).SR := rfl
  rw [getStatus_congr StatusOverflow hSR]
  rw [getStatus_setZN_other _ _ _ (by decide) (by decide) (by decide) (by decide)]
  rw [getStatus_set_other _ _ _ _ (by decide) (by decide)]
  rw [getStatus_set_self _ _ _ (by decide) (by decide)]


/-! ## Live-status invariant machinery (C9) -/

theorem Read_lt (cpu : CPU) (addr : Nat) : cpu.Read addr < 256 :=
  Nat.mod_lt _ (by norm_num)

theorem srinv_or {p : Nat} (f : Nat) (hf1 : f &&& 0x30 = 0) (hf2 : f < 256)
    (h : SRinvariant p) : SRinvariant (p ||| f) := by
  refine ⟨?_, ?_⟩
  · have := Nat.or_lt_two_pow (n := 8) (by simpa using h.1) (by simpa using hf2)
    simpa using this
  · rw [or_and_mask _ _ _ hf1]
    exact h.2

theorem srinv_andNot {p : Nat} (f : Nat) (hf : (f ^^^ 0xFF) &&& 0x30 = 0x30)
    (h : SRinvariant p) : SRinvariant (p &&& (f ^^^ 0xFF)) := by
  refine ⟨lt_of_le_of_lt Nat.and_le_left h.1, ?_⟩
  rw [and_and_mask _ _ _ hf]
  exact h.2

theorem srinv_setStatus {cpu : CPU} (f : Nat) (b : Bool)
    (hf1 : f &&& 0x30 = 0) (hf2 : f < 256) (hf3 : (f ^^^ 0xFF) &&& 0x30 = 0x30)
    (h : SRinvariant cpu.SR) : SRinvariant ((cpu.setStatus f b).SR) := by
  unfold CPU.setStatus
  cases b
  · simp only [Bool.false_eq_true, if_false]
    exact srinv_andNot f hf3 h
  · simp only [if_true]
    exact srinv_or f hf1 hf2 h

theorem srinv_setZ {cpu : CPU} (v : Nat) (h : SRinvariant cpu.SR) :
    SRinvariant ((cpu.setZ v).SR) := by
  unfold CPU.setZ
  split_ifs <;> exact srinv_setStatus _ _ (by decide) (by decide) (by decide) h

theorem srinv_setN {cpu : CPU} (v : Nat) (h : SRinvariant cpu.SR) :
    SRinvariant ((cpu.setN v).SR) := by
  unfold CPU.setN
  split_ifs <;> exact srinv_setStatus _ _ (by decide) (by decide) (by decide) h

theorem srinv_setZN {cpu : CPU} (v : Nat) (h : SRinvariant cpu.SR) :
    SRinvariant ((cpu.setZN v).SR) := by
  unfold CPU.setZN
  exact srinv_setN v (srinv_setZ v h)

theorem SR_branch (cpu : CPU) (b : Bool) (addr : Nat) :
    (cpu.branch b addr).SR = cpu.SR := by
  unfold CPU.branch
  dsimp only []
  split_ifs <;> rfl

set_option maxRecDepth 4000 in
theorem plp_mask (p : Nat) (hp : p < 256) :
    ((p ||| 32) &&& (16 ^^^ 255)) &&& 0x30 = 0x20 ∧ ((p ||| 32) &&& (16 ^^^ 255)) < 256 := by
  revert hp
  revert p
  decide

set_option maxRecDepth 4000 in
theorem rti_mask (p : Nat) (hp : p < 256) :
    ((p &&& (16 ^^^ 255)) ||| 32) &&& 0x30 = 0x20 ∧ ((p &&& (16 ^^^ 255)) ||| 32) < 256 := by
  revert hp
  revert p
  decide

theorem SR_push (cpu : CPU) (v : Nat) : (cpu.push v).SR = cpu.SR := rfl

theorem SR_pushWord (cpu : CPU) (v : Nat) : (cpu.pushWord v).SR = cpu.SR := rfl

theorem op_srinv_adc : opPreservesSR adc := fun _ _ h =>
  srinv_setZN _ (srinv_setStatus _ _ (by decide) (by decide) (by decide)
    (srinv_setStatus _ _ (by decide) (by decide) (by decide) h))

theorem op_srinv_and : opPreservesSR Gonesem.and := fun _ _ h => srinv_setZN _ h

theorem op_srinv_asl : opPreservesSR asl := by
  intro cpu args h
  unfold asl
  split_ifs <;>
    exact srinv_setZN _ (srinv_setStatus _ _ (by decide) (by decide) (by decide) h)

theorem op_srinv_bcc : opPreservesSR bcc := by
  intro cpu args h
  show SRinvariant ((cpu.branch (!cpu.getStatus StatusCarry) args.address).SR)
  rw [SR_branch]
  exact h



theorem op_srinv_bcs : opPreservesSR bcs := by
  intro cpu args h
  unfold bcs
  dsimp only []
  rw [SR_branch]
  exact h

theorem op_srinv_beq : opPreservesSR beq := by
  intro cpu args h
  unfold beq
  dsimp only []
  rw [SR_branch]
  exact h

theorem op_srinv_bmi : opPreservesSR bmi := by
  intro cpu args h
  unfold bmi
  dsimp only []
  rw [SR_branch]
  exact h

theorem op_srinv_bne : opPreservesSR bne := by
  intro cpu args h
  unfold bne
  dsimp only []
  rw [SR_branch]
  exact h

theorem op_srinv_bpl : opPreservesSR bpl := by
  intro cpu args h
  unfold bpl
  dsimp only []
  rw [SR_branch]
  exact h

theorem op_srinv_bvc : opPreservesSR bvc := by
  intro cpu args h
  unfold bvc
  dsimp only []
  rw [SR_branch]
  exact h

theorem op_srinv_bvs : opPreservesSR bvs := by
  intro cpu args h
  unfold bvs
  dsimp only []
  rw [SR_branch]
  exact h

theorem op_srinv_lda : opPreservesSR lda := fun _ _ h => srinv_setZN _ h

theorem op_srinv_ldx : opPreservesSR ldx := fun _ _ h => srinv_setZN _ h

theorem op_srinv_ldy : opPreservesSR ldy := fun _ _ h => srinv_setZN _ h

theorem op_srinv_tax : opPreservesSR tax := fun _ _ h => srinv_setZN _ h

theorem op_srinv_tay : opPreservesSR tay := fun _ _ h => srinv_setZN _ h

theorem op_srinv_tsx : opPreservesSR tsx := fun _ _ h => srinv_setZN _ h

theorem op_srinv_txa : opPreservesSR txa := fun _ _ h => srinv_setZN _ h

theorem op_srinv_tya : opPreservesSR tya := fun _ _ h => srinv_setZN _ h

theorem op_srinv_pla : opPreservesSR pla := fun _ _ h => srinv_setZN _ h

theorem op_srinv_inx : opPreservesSR inx := fun _ _ h => srinv_setZN _ h

theorem op_srinv_iny : opPreservesSR iny := fun _ _ h => srinv_setZN _ h

theorem op_srinv_dex : opPreservesSR dex := fun _ _ h => srinv_setZN _ h

theorem op_srinv_dey : opPreservesSR dey := fun _ _ h => srinv_setZN _ h

theorem op_srinv_inc : opPreservesSR inc := fun _ _ h => srinv_setZN _ h

theorem op_srinv_dec : opPreservesSR Gonesem.dec := fun _ _ h => srinv_setZN _ h

theorem op_srinv_eor : opPreservesSR eor := fun _ _ h => srinv_setZN _ h

theorem op_srinv_ora : opPreservesSR ora := fun _ _ h => srinv_setZN _ h

theorem op_srinv_lax : opPreservesSR lax := fun _ _ h => srinv_setZN _ h

theorem op_srinv_jmp : opPreservesSR jmp := fun _ _ h => h

theorem op_srinv_jsr : opPreservesSR jsr := by
  intro cpu args h
  unfold jsr
  dsimp only []
  show SRinvariant ((cpu.pushWord ((cpu.PC + 65536 - 1) % 65536)).SR)
  rw [SR_pushWord]
  exact h

theorem op_srinv_rts : opPreservesSR rts := fun _ _ h => h

theorem op_srinv_nop : opPreservesSR nop := fun _ _ h => h

theorem op_srinv_xxx : opPreservesSR xxx := fun _ _ h => h

theorem op_srinv_pha : opPreservesSR pha := fun _ _ h => h

theorem op_srinv_php : opPreservesSR php := fun _ _ h => h

theorem op_srinv_sta : opPreservesSR sta := fun _ _ h => h

theorem op_srinv_stx : opPreservesSR stx := fun _ _ h => h

theorem op_srinv_sty : opPreservesSR sty := fun _ _ h => h

theorem op_srinv_txs : opPreservesSR txs := fun _ _ h => h

theorem op_srinv_sax : opPreservesSR sax := fun _ _ h => h

theorem op_srinv_ahx : opPreservesSR ahx := fun _ _ h => h

theorem op_srinv_shx : opPreservesSR shx := fun _ _ h => h

theorem op_srinv_shy : opPreservesSR shy := fun _ _ h => h

theorem op_srinv_las : opPreservesSR las := fun _ _ h => h

theorem op_srinv_cmp : opPreservesSR cmp := fun _ _ h =>
  srinv_setZN _ (srinv_setStatus StatusCarry _ (by decide) (by decide) (by decide) h)

theorem op_srinv_cpx : opPreservesSR cpx := fun _ _ h =>
  srinv_setZN _ (srinv_setStatus StatusCarry _ (by decide) (by decide) (by decide) h)

theorem op_srinv_cpy : opPreservesSR cpy := fun _ _ h =>
  srinv_setZN _ (srinv_setStatus StatusCarry _ (by decide) (by decide) (by decide) h)

theorem op_srinv_dcp : opPreservesSR dcp := fun _ _ h =>
  srinv_setZN _ (srinv_setStatus StatusCarry _ (by decide) (by decide) (by decide) h)

theorem op_srinv_alr : opPreservesSR alr := fun _ _ h =>
  srinv_setZN _ (srinv_setStatus StatusCarry _ (by decide) (by decide) (by decide) h)

theorem op_srinv_axs : opPreservesSR axs := fun _ _ h =>
  srinv_setZN _ (srinv_setStatus StatusCarry _ (by decide) (by decide) (by decide) h)

theorem op_srinv_slo : opPreservesSR slo := fun _ _ h =>
  srinv_setZN _ (srinv_setStatus StatusCarry _ (by decide) (by decide) (by decide) h)

theorem op_srinv_sre : opPreservesSR sre := fun _ _ h =>
  srinv_setZN _ (srinv_setStatus StatusCarry _ (by decide) (by decide) (by decide) h)

theorem op_srinv_rla : opPreservesSR rla := fun _ _ h =>
  srinv_setZN _ (srinv_setStatus StatusCarry _ (by decide) (by decide) (by decide) h)

theorem op_srinv_anc : opPreservesSR anc := fun _ _ h =>
  srinv_setStatus StatusCarry _ (by decide) (by decide) (by decide) (srinv_setZN _ h)

theorem op_srinv_arr : opPreservesSR arr := fun _ _ h =>
  srinv_setStatus StatusOverflow _ (by decide) (by decide) (by decide)
    (srinv_setStatus StatusCarry _ (by decide) (by decide) (by decide) (srinv_setZN _ h))

theorem op_srinv_sbc : opPreservesSR sbc := fun _ _ h =>
  srinv_setZN _ (srinv_setStatus StatusCarry _ (by decide) (by decide) (by decide)
    (srinv_setStatus StatusOverflow _ (by decide) (by decide) (by decide) h))

theorem op_srinv_isc : opPreservesSR isc := fun _ _ h =>
  srinv_setZN _ (srinv_setStatus StatusCarry _ (by decide) (by decide) (by decide)
    (srinv_setStatus StatusOverflow _ (by decide) (by decide) (by decide) h))

theorem op_srinv_rra : opPreservesSR rra := fun _ _ h =>
  srinv_setZN _ (srinv_setStatus StatusCarry _ (by decide) (by decide) (by decide)
    (srinv_setStatus StatusOverflow _ (by decide) (by decide) (by decide)
      (srinv_setStatus StatusCarry _ (by decide) (by decide) (by decide) h)))

theorem op_srinv_lsr : opPreservesSR lsr := by
  intro cpu args h
  unfold lsr
  split_ifs <;>
    exact srinv_setZN _ (srinv_setStatus StatusCarry _ (by decide) (by decide) (by decide) h)

theorem op_srinv_rol : opPreservesSR rol := by
  intro cpu args h
  unfold rol
  split_ifs <;>
    exact srinv_setZN _ (srinv_setStatus StatusCarry _ (by decide) (by decide) (by decide) h)

theorem op_srinv_ror : opPreservesSR ror := by
  intro cpu args h
  unfold ror
  split_ifs <;>
    exact srinv_setZN _ (srinv_setStatus StatusCarry _ (by decide) (by decide) (by decide) h)

theorem op_srinv_bit : opPreservesSR bit := fun _ _ h =>
  srinv_setStatus StatusNegative _ (by decide) (by decide) (by decide)
    (srinv_setStatus StatusOverflow _ (by decide) (by decide) (by decide) (srinv_setZ _ h))

theorem op_srinv_brk : opPreservesSR brk := by
  intro cpu args h
  unfold brk
  dsimp only []
  refine srinv_setStatus StatusInterrupt true (by decide) (by decide) (by decide) ?_
  rw [SR_push, SR_pushWord]
  exact h

theorem op_srinv_clc : opPreservesSR clc := fun _ _ h =>
  srinv_setStatus StatusCarry false (by decide) (by decide) (by decide) h

theorem op_srinv_cld : opPreservesSR cld := fun _ _ h =>
  srinv_setStatus StatusDecimal false (by decide) (by decide) (by decide) h

theorem op_srinv_cli : opPreservesSR cli := fun _ _ h =>
  srinv_setStatus StatusInterrupt false (by decide) (by decide) (by decide) h

theorem op_srinv_clv : opPreservesSR clv := fun _ _ h =>
  srinv_setStatus StatusOverflow false (by decide) (by decide) (by decide) h

theorem op_srinv_sec : opPreservesSR sec := fun _ _ h =>
  srinv_setStatus StatusCarry true (by decide) (by decide) (by decide) h

theorem op_srinv_sed : opPreservesSR sed := fun _ _ h =>
  srinv_setStatus StatusDecimal true (by decide) (by decide) (by decide) h

theorem op_srinv_sei : opPreservesSR sei := fun _ _ h =>
  srinv_setStatus StatusInterrupt true (by decide) (by decide) (by decide) h

theorem op_srinv_plp : opPreservesSR plp := by
  intro cpu args h
  have hm := plp_mask (({cpu with SP := (cpu.SP + 1) % 256} : CPU).Read
    (StackPage + (cpu.SP + 1) % 256)) (Read_lt _ _)
  exact ⟨hm.2, hm.1⟩

theorem op_srinv_rti : opPreservesSR rti := by
  intro cpu args h
  have hm := rti_mask (({cpu with SP := (cpu.SP + 1) % 256} : CPU).Read
    (StackPage + (cpu.SP + 1) % 256)) (Read_lt _ _)
  exact ⟨hm.2, hm.1⟩


theorem runOp_preservesSR (o : Op) (ho : o ≠ Op.tas) : opPreservesSR (runOp o) := by
  cases o with
  | tas => exact absurd rfl ho
  | adc => exact op_srinv_adc
  | and => exact op_srinv_and
  | asl => exact op_srinv_asl
  | bcc => exact op_srinv_bcc
  | bcs => exact op_srinv_bcs
  | beq => exact op_srinv_beq
  | bit => exact op_srinv_bit
  | bmi => exact op_srinv_bmi
  | bne => exact op_srinv_bne
  | bpl => exact op_srinv_bpl
  | brk => exact op_srinv_brk
  | bvc => exact op_srinv_bvc
  | bvs => exact op_srinv_bvs
  | clc => exact op_srinv_clc
  | cld => exact op_srinv_cld
  | cli => exact op_srinv_cli
  | clv => exact op_srinv_clv
  | cmp => exact op_srinv_cmp
  | cpx => exact op_srinv_cpx
  | cpy => exact op_srinv_cpy
  | dec => exact op_srinv_dec
  | dex => exact op_srinv_dex
  | dey => exact op_srinv_dey
  | eor => exact op_srinv_eor
  | inc => exact op_srinv_inc
  | inx => exact op_srinv_inx
  | iny => exact op_srinv_iny
  | jmp => exact op_srinv_jmp
  | jsr => exact op_srinv_jsr
  | lda => exact op_srinv_lda
  | ldx => exact op_srinv_ldx
  | ldy => exact op_srinv_ldy
  | lsr => exact op_srinv_lsr
  | nop => exact op_srinv_nop
  | ora => exact op_srinv_ora
  | pha => exact op_srinv_pha
  | php => exact op_srinv_php
  | pla => exact op_srinv_pla
  | plp => exact op_srinv_plp
  | rol => exact op_srinv_rol
  | ror => exact op_srinv_ror
  | rti => exact op_srinv_rti
  | rts => exact op_srinv_rts
  | sbc => exact op_srinv_sbc
  | sec => exact op_srinv_sec
  | sed => exact op_srinv_sed
  | sei => exact op_srinv_sei
  | sta => exact op_srinv_sta
  | stx => exact op_srinv_stx
  | sty => exact op_srinv_sty
  | tax => exact op_srinv_tax
  | tay => exact op_srinv_tay
  | tsx => exact op_srinv_tsx
  | txa => exact op_srinv_txa
  | txs => exact op_srinv_txs
  | tya => exact op_srinv_tya
  | ahx => exact op_srinv_ahx
  | alr => exact op_srinv_alr
  | anc => exact op_srinv_anc
  | arr => exact op_srinv_arr
  | axs => exact op_srinv_axs
  | dcp => exact op_srinv_dcp
  | isc => exact op_srinv_isc
  | las => exact op_srinv_las
  | lax => exact op_srinv_lax
  | rla => exact op_srinv_rla
  | rra => exact op_srinv_rra
  | sax => exact op_srinv_sax
  | shx => exact op_srinv_shx
  | shy => exact op_srinv_shy
  | slo => exact op_srinv_slo
  | sre => exact op_srinv_sre
  | xxx => exact op_srinv_xxx

set_option maxHeartbeats 2000000 in
theorem instrAt_op_ne_tas : ∀ k, k < 256 → k ≠ 155 → (instrAt k).op ≠ Op.tas := by decide

theorem srinv_clock (s : CPU) (h : SRinvariant s.SR)
    (hop : s.cycles = 0 → s.Read s.PC ≠ 0x9B) :
    SRinvariant ((CPU.Clock s).1.SR) := by
  unfold CPU.Clock
  by_cases hc : s.cycles > 0
  · rw [if_pos hc]
    exact h
  · rw [if_neg hc]
    have hcy : s.cycles = 0 := by omega
    have hne : (instrAt (s.Read s.PC)).op ≠ Op.tas :=
      instrAt_op_ne_tas _ (Read_lt s s.PC) (hop hcy)
    dsimp only []
    split_ifs with hpc
    · exact runOp_preservesSR _ hne _ _ h
    · exact runOp_preservesSR _ hne _ _ h


theorem and_sixteen_of_testBit {y : Nat} (h : y.testBit 4 = true) : y &&& 16 = 16 := by
  have h2 := Nat.and_two_pow y 4
  rw [h] at h2
  simpa using h2

theorem php_pushed_byte (s : CPU) (args : OperationArgs) :
    (php s args).Read (StackPage + s.SP) &&& StatusBreak = StatusBreak := by
  unfold php CPU.push CPU.Write CPU.Read
  dsimp only []
  rw [if_pos rfl]
  show ((s.SR ||| StatusBreak ||| StatusUnused) % 256) % 256 &&& 16 = 16
  apply and_sixteen_of_testBit
  rw [show (256 : Nat) = 2 ^ 8 from rfl, Nat.testBit_mod_two_pow, Nat.testBit_mod_two_pow]
  simp only [Nat.testBit_or, show StatusBreak = 16 from rfl, show StatusUnused = 32 from rfl]
  rw [show Nat.testBit 16 4 = true from rfl]
  simp

theorem brk_pushed_byte (s : CPU) (args : OperationArgs) :
    (brk s args).Read (StackPage + (s.SP + 254) % 256) &&& StatusBreak = StatusBreak := by
  unfold brk CPU.pushWord CPU.push CPU.setStatus CPU.Write CPU.Read
  dsimp only []
  rw [if_pos rfl]
  dsimp only []
  rw [if_pos (show (StackPage + (s.SP + 254) % 256) % 65536 =
    (StackPage + ((s.SP + 255) % 256 + 255) % 256) % 65536 by unfold StackPage; omega)]
  show ((s.SR ||| StatusBreak ||| StatusUnused) % 256) % 256 &&& 16 = 16
  apply and_sixteen_of_testBit
  rw [show (256 : Nat) = 2 ^ 8 from rfl, Nat.testBit_mod_two_pow, Nat.testBit_mod_two_pow]
  simp only [Nat.testBit_or, show StatusBreak = 16 from rfl, show StatusUnused = 32 from rfl]
  rw [show Nat.testBit 16 4 = true from rfl]
  simp

theorem srinv_getStatus (s : CPU) (h : s.SR &&& 0x30 = 0x20) :
    s.getStatus StatusUnused = true ∧ s.getStatus StatusBreak = false := by
  unfold CPU.getStatus
  have h32 : s.SR &&& 32 = 32 := by
    calc s.SR &&& 32 = s.SR &&& (48 &&& 32) := rfl
      _ = (s.SR &&& 48) &&& 32 := (Nat.and_assoc _ _ _).symm
      _ = 32 &&& 32 := by rw [h]
      _ = 32 := rfl
  have h16 : s.SR &&& 16 = 0 := by
    calc s.SR &&& 16 = s.SR &&& (48 &&& 16) := rfl
      _ = (s.SR &&& 48) &&& 16 := (Nat.and_assoc _ _ _).symm
      _ = 32 &&& 16 := by rw [h]
      _ = 0 := rfl
  rw [show StatusUnused = 32 from rfl, show StatusBreak = 16 from rfl, h32, h16]
  exact ⟨rfl, rfl⟩

theorem branch_spec (s : CPU) (addr : Nat) (hcy : s.cycles < 254) :
    (s.branch true addr).PC = addr ∧
    (s.branch true addr).cycles =
      s.cycles + 1 + (if CPU.pageCrossed addr s.PC = true then 1 else 0) ∧
    s.branch false addr = s := by
  refine ⟨rfl, ?_, rfl⟩
  unfold CPU.branch
  rw [if_pos rfl]
  dsimp only []
  by_cases hp : CPU.pageCrossed addr s.PC = true
  · rw [if_pos hp, if_pos hp]
    dsimp only []
    omega
  · rw [if_neg hp, if_neg hp]
    dsimp only []
    omega



/-! ## System-clock cadence lemmas (C1) -/

theorem ppuClock_fresh (cart : Cartridge) : PPU.Clock (NewPPU cart) = NewPPU cart := rfl

theorem c1Events_succ (n : Nat) :
    c1Events (n + 1) = c1Events n ++ (Ev.ppu :: (if n % 3 = 0 then [Ev.cpu] else [])) := by
  simp [c1Events, List.range_succ]

theorem nes_clock_iterate (cart : Cartridge) (N : Nat) (h : N ≤ 2 ^ 64) :
    (NES.Clock^[N] (NewNES cart)).ppu = NewPPU cart ∧
    (NES.Clock^[N] (NewNES cart)).TotalCycles = N % 2 ^ 64 ∧
    (NES.Clock^[N] (NewNES cart)).ppuClocks = N ∧
    (NES.Clock^[N] (NewNES cart)).cpuClocks = (N + 2) / 3 ∧
    (NES.Clock^[N] (NewNES cart)).trace = c1Events N := by
  induction N with
  | zero => exact ⟨rfl, rfl, rfl, rfl, rfl⟩
  | succ n ih =>
    have hlt : n < 2 ^ 64 := lt_of_lt_of_le (Nat.lt_succ_self n) h
    obtain ⟨hp, ht, hpc, hcc, htr⟩ := ih (le_of_lt hlt)
    rw [Function.iterate_succ_apply']
    simp only [NES.Clock, hp, ht, hpc, hcc, htr, ppuClock_fresh,
      Nat.mod_eq_of_lt hlt]
    by_cases h3 : n % 3 = 0
    · rw [if_pos h3]
      simp only [c1Events_succ, h3]
      refine ⟨rfl, ?_, rfl, ?_, ?_⟩
      · show (n + 1) % 2 ^ 64 = (n + 1) % 2 ^ 64
        rfl
      · show (n + 2) / 3 + 1 = (n + 1 + 2) / 3
        omega
      · show c1Events n ++ [Ev.ppu] ++ [Ev.cpu] = c1Events n ++ (Ev.ppu :: [Ev.cpu])
        simp
    · rw [if_neg h3]
      simp only [c1Events_succ]
      refine ⟨rfl, ?_, rfl, ?_, ?_⟩
      · show (n + 1) % 2 ^ 64 = (n + 1) % 2 ^ 64
        rfl
      · show (n + 2) / 3 = (n + 1 + 2) / 3
        omega
      · show c1Events n ++ [Ev.ppu] = c1Events n ++ (Ev.ppu :: (if n % 3 = 0 then [Ev.cpu] else []))
        simp [h3]


/-! ## The claims -/

/-- C1 counterexample: after a single master tick of a freshly constructed
NES the CPU has already been clocked once, while floor(1/3) = 0, so the
claimed floor(N/3) count fails at N = 1. -/
theorem c1_clock_cadence_counterexample :
    (NES.Clock^[1] (NewNES cart0)).ppuClocks = 1 ∧
    (NES.Clock^[1] (NewNES cart0)).cpuClocks = 1 ∧
    (1 : Nat) / 3 = 0 ∧
    (NES.Clock^[1] (NewNES cart0)).cpuClocks ≠ 1 / 3 := by
  decide

/-- C1 (amended): for every cartridge and every N ≤ 2^64, after N calls of
the System Clock starting from a freshly constructed NES, the PPU has been
stepped exactly N times and the CPU exactly ⌈N/3⌉ = (N+2)/3 times (it is
clocked on master ticks 0, 3, 6, …), and the ghost trace shows the PPU
advancing before the CPU within each master tick. -/
theorem c1_clock_cadence (cart : Cartridge) (N : Nat) (h : N ≤ 2 ^ 64) :
    (NES.Clock^[N] (NewNES cart)).ppuClocks = N ∧
    (NES.Clock^[N] (NewNES cart)).cpuClocks = (N + 2) / 3 ∧
    (NES.Clock^[N] (NewNES cart)).trace = c1Events N := by
  obtain ⟨-, -, h1, h2, h3⟩ := nes_clock_iterate cart N h
  exact ⟨h1, h2, h3⟩

/-- C1 witness: the amended cadence at the concrete input N = 3. -/
theorem c1_clock_cadence_witness :
    (3 : Nat) ≤ 2 ^ 64 ∧
    (NES.Clock^[3] (NewNES cart0)).ppuClocks = 3 ∧
    (NES.Clock^[3] (NewNES cart0)).cpuClocks = (3 + 2) / 3 :=
  ⟨by norm_num, (c1_clock_cadence cart0 3 (by norm_num)).1,
    (c1_clock_cadence cart0 3 (by norm_num)).2.1⟩

/-- C2 counterexample: the NMI routine leaves cycles_remaining at the full
cost 8, not at 8 − 1 = 7 as the claim states. -/
theorem c2_nmi_counterexample :
    (CPU.NMI c2cpu).cycles = 8 ∧ (CPU.NMI c2cpu).cycles ≠ 7 := by
  decide

/-- C2 (amended): for every in-range CPU state, the NMI routine pushes the
16-bit PC (high byte at SP, low byte below it), pushes the status byte with
B clear and U and I set, loads PC from the little-endian word at $FFFA, adds
a cost of 8 cycles to total_cycles, and leaves cycles_remaining at the full
8 (there is no final decrement as in the instruction path). -/
theorem c2_nmi_spec (s : CPU) (hPC : s.PC < 65536) (hSP : s.SP < 256) :
    (CPU.NMI s).cycles = 8 ∧
    (CPU.NMI s).TotalCycles = (s.TotalCycles + 8) % 2 ^ 64 ∧
    (CPU.NMI s).PC = s.ReadWord NMIVector ∧
    (CPU.NMI s).Read (StackPage + s.SP) = s.PC >>> 8 ∧
    (CPU.NMI s).Read (StackPage + (s.SP + 255) % 256) = s.PC &&& 0xFF ∧
    (CPU.NMI s).Read (StackPage + (s.SP + 254) % 256) =
      ((s.SR &&& (StatusBreak ^^^ 0xFF)) ||| StatusInterrupt) ||| StatusUnused ∧
    (CPU.NMI s).SP = (s.SP + 253) % 256 ∧
    (CPU.NMI s).SR = ((s.SR &&& (StatusBreak ^^^ 0xFF)) ||| StatusInterrupt) ||| StatusUnused ∧
    (CPU.NMI s).SR &&& StatusBreak = 0 ∧
    (CPU.NMI s).SR &&& StatusUnused = StatusUnused ∧
    (CPU.NMI s).SR &&& StatusInterrupt = StatusInterrupt := by
  have hx : s.PC >>> 8 < 256 := by
    rw [Nat.shiftRight_eq_div_pow]
    omega
  have hand : s.PC &&& 255 ≤ 255 := Nat.and_le_right
  have hsr : ((s.SR &&& (16 ^^^ 255)) ||| 4) ||| 32 < 256 := by
    have h1 : s.SR &&& (16 ^^^ 255) < 2 ^ 8 :=
      lt_of_le_of_lt Nat.and_le_right (by decide)
    have h2 : ((s.SR &&& (16 ^^^ 255)) ||| 4) < 2 ^ 8 :=
      Nat.or_lt_two_pow h1 (by norm_num)
    have h3 : (((s.SR &&& (16 ^^^ 255)) ||| 4) ||| 32) < 2 ^ 8 :=
      Nat.or_lt_two_pow h2 (by norm_num)
    simpa using h3
  unfold CPU.NMI CPU.pushWord CPU.push CPU.setStatus CPU.Write CPU.Read CPU.ReadWord
  simp only [StackPage, StatusBreak, StatusInterrupt, StatusUnused, NMIVector]
  norm_num
  have m1 : (256 + s.SP) % 65536 = 256 + s.SP := by omega
  have m2 : (256 + (s.SP + 255) % 256) % 65536 = 256 + (s.SP + 255) % 256 := by omega
  have m3 : (256 + (s.SP + 255 + 255) % 256) % 65536 = 256 + (s.SP + 255 + 255) % 256 := by
    omega
  simp only [CPU.Read, m1, m2, m3]
  norm_num
  refine ⟨?_, ?_, ?_, ?_, ?_, ?_, ?_, ?_⟩
  · rw [if_neg (by omega), if_neg (by omega), if_neg (by omega),
       if_neg (by omega), if_neg (by omega), if_neg (by omega)]
  · rw [if_neg (by omega), if_neg (by omega)]
    rw [Nat.mod_eq_of_lt (Nat.mod_lt _ (by norm_num)), Nat.mod_eq_of_lt hx]
  · rw [if_neg (by omega)]
    rw [Nat.mod_eq_of_lt (Nat.mod_lt _ (by norm_num)),
       Nat.mod_eq_of_lt (lt_of_le_of_lt hand (by norm_num))]
  · rw [if_pos (by omega)]
    rw [Nat.mod_eq_of_lt (Nat.mod_lt _ (by norm_num)), Nat.mod_eq_of_lt hsr]
  · omega
  · rw [or_and_mask _ _ _ (by decide), or_and_mask _ _ _ (by decide), Nat.and_assoc,
      show ((16 ^^^ 255) &&& 16 : Nat) = 0 from by decide, Nat.and_zero]
  · exact or_and_self _ 32
  · rw [or_and_mask _ _ _ (by decide)]
    exact or_and_self _ 4

/-- C2 witness: the amended NMI effects at a concrete in-range CPU state. -/
theorem c2_nmi_spec_witness :
    c2cpu.PC < 65536 ∧ c2cpu.SP < 256 ∧ (CPU.NMI c2cpu).cycles = 8 :=
  ⟨by decide, by decide, (c2_nmi_spec c2cpu (by decide) (by decide)).1⟩

/-- C3 counterexample: with Z set, PC = 0x00FE and BEQ +2 at PC, one
completed step sets PC to 0x0102 but increments total_cycles by 3, not 4:
the target 0x0102 is on the same page as the incremented PC 0x0100, so no
page-cross cycle is added. -/
theorem c3_branch_counterexample :
    (CPU.clockN 1 c3cpu).PC = 0x0102 ∧
    (CPU.clockN 1 c3cpu).TotalCycles = 3 ∧
    (CPU.clockN 1 c3cpu).TotalCycles ≠ 4 := by
  decide

/-- C3 (amended): the concrete scenario yields PC = 0x0102 and exactly 3
cycles (2 base + 1 taken; no page-cross penalty because the branch helper
compares the target with the already incremented PC, and 0x0102 shares a
page with 0x0100); in general a taken branch adds 1 cycle, a taken branch
whose target's page differs from the incremented PC's page adds 1 more, and
an untaken branch changes nothing. -/
theorem c3_branch_cycles (s : CPU) (addr : Nat) (hcy : s.cycles < 254) :
    (CPU.clockN 1 c3cpu).PC = 0x0102 ∧
    (CPU.clockN 1 c3cpu).TotalCycles = 3 ∧
    (s.branch true addr).PC = addr ∧
    (s.branch true addr).cycles =
      s.cycles + 1 + (if CPU.pageCrossed addr s.PC = true then 1 else 0) ∧
    s.branch false addr = s := by
  obtain ⟨h1, h2, h3⟩ := branch_spec s addr hcy
  exact ⟨by decide, by decide, h1, h2, h3⟩

/-- C3 witness: the amended branch rule at a concrete state and target. -/
theorem c3_branch_cycles_witness :
    c3cpu.cycles < 254 ∧ (c3cpu.branch true 0x0102).PC = 0x0102 :=
  ⟨by decide, (c3_branch_cycles c3cpu 0x0102 (by decide)).2.2.1⟩

/-- C4: for every CPU state and operand address, ADC sets the V flag exactly
to the spec's formula ((~(A^M)) & (A^result) & 0x80) != 0 over the computed
sum, and SBC — which the source makes identical to ADC with the operand
XORed with 0xFF — sets V to the same formula applied to the XORed operand
and its sum. -/
theorem c4_overflow_formula (cpu : CPU) (args : OperationArgs) :
    ((adc cpu args).getStatus StatusOverflow =
      overflowFormula cpu.A (cpu.Read args.address)
        (cpu.A + cpu.Read args.address + Btou8 (cpu.getStatus StatusCarry))) ∧
    ((sbc cpu args).getStatus StatusOverflow =
      overflowFormula cpu.A (cpu.Read args.address ^^^ 0x00FF)
        (cpu.A + (cpu.Read args.address ^^^ 0x00FF) + Btou8 (cpu.getStatus StatusCarry))) := by
  constructor
  · rw [getStatusV_adc]
    unfold overflowFormula
    exact overflow_bits_eq _ _ _
  · rw [getStatusV_sbc]
    unfold overflowFormula
    exact overflow_bits_eq _ _ _

/-- C5: whenever an indirect pointer's low byte is 0xFF, the buggy word read
takes the high byte from pointer & 0xFF00 instead of the next page, and in
the concrete scenario (pointer $02FF holding 0x29, $0300 holding 0x11, $0200
holding 0xFF, JMP ($02FF) at PC) the step leaves PC = 0xFF29, not 0x1129. -/
theorem c5_indirect_jmp_pagewrap :
    (∀ (cpu : CPU) (addr : Nat), addr &&& 0x00FF = 0x00FF →
      cpu.readWordbug addr = ((cpu.Read (addr &&& 0xFF00)) <<< 8) ||| cpu.Read addr) ∧
    (CPU.clockN 1 c5cpu).PC = 0xFF29 ∧
    (CPU.clockN 1 c5cpu).PC ≠ 0x1129 := by
  refine ⟨?_, by decide, by decide⟩
  intro cpu addr h
  unfold CPU.readWordbug
  rw [if_pos h]

/-- C5 witness: the page-wrap read at the concrete pointer $02FF. -/
theorem c5_indirect_jmp_pagewrap_witness :
    ((0x02FF : Nat) &&& 0x00FF = 0x00FF) ∧
    c5cpu.readWordbug 0x02FF = ((c5cpu.Read 0x0200) <<< 8) ||| c5cpu.Read 0x02FF :=
  ⟨by decide, c5_indirect_jmp_pagewrap.1 c5cpu 0x02FF (by decide)⟩

/-- C6: every CPU bus read of a PPUSTATUS mirror ($2000–$3FFF with register
index 2) returns (status & 0xE0) | (data_buffer & 0x1F), and afterwards the
vblank bit of the status register is clear and the address latch is false. -/
theorem c6_ppustatus_read (nes : NES) (addr : Nat)
    (h1 : 0x2000 ≤ addr) (h2 : addr ≤ 0x3FFF) (h3 : addr % 8 = 2) :
    (nes.Read addr).1 = ((nes.ppu.status &&& 0xE0) ||| (nes.ppu.dataBuffer &&& 0x1F)) ∧
    (nes.Read addr).2.ppu.status &&& StatusVerticalBlank = 0 ∧
    (nes.Read addr).2.ppu.addressLatch = false := by
  have hno : ¬ (addr ≤ 0x1FFF) := by omega
  have h8 : addr % 0x0008 = 2 := h3
  unfold NES.Read
  rw [if_neg hno, if_pos ⟨h1, h2⟩, h8]
  refine ⟨rfl, ?_, rfl⟩
  show (nes.ppu.status &&& (StatusVerticalBlank ^^^ 0xFF)) &&& StatusVerticalBlank = 0
  exact andNot_and_self _ _ (by decide)

/-- C6 witness: the PPUSTATUS read contract at address $2002 of a fresh
NES. -/
theorem c6_ppustatus_read_witness :
    ((0x2000 : Nat) ≤ 0x2002) ∧ ((0x2002 : Nat) ≤ 0x3FFF) ∧ ((0x2002 : Nat) % 8 = 2) ∧
    ((NewNES cart0).Read 0x2002).2.ppu.addressLatch = false :=
  ⟨by decide, by decide, by decide,
    (c6_ppustatus_read (NewNES cart0) 0x2002 (by decide) (by decide) (by decide)).2.2⟩

/-- C7: the cartridge loader's mapper-ID derivation swaps the iNES nibbles:
it computes (flags1 & 0xF0) | (flags2 >> 4), so the header with flags1 =
0x10, flags2 = 0x00 (mapper 1 in the documented layout) yields ID 16 instead
of 1; the derived ID is what decides mapper construction (non-zero IDs are
unsupported-mapper failures). -/
theorem c7_mapper_id_nibble_swap :
    mapperIDOfFlags 0x10 0x00 = 16 ∧
    specMapperIDOfFlags 0x10 0x00 = 1 ∧
    mapperIDOfFlags 0x10 0x00 ≠ specMapperIDOfFlags 0x10 0x00 ∧
    (headerOfBytes c7rom).Mapper1 = 0x10 ∧
    (headerOfBytes c7rom).Mapper2 = 0x00 ∧
    NewMapper (mapperIDOfFlags (headerOfBytes c7rom).Mapper1 (headerOfBytes c7rom).Mapper2) = none ∧
    exceptOk (NewCartridge c7rom) = false ∧
    (∀ id : Nat, NewMapper id = none ↔ id ≠ 0) := by
  refine ⟨by decide, by decide, by decide, by decide, by decide, by decide, by decide, ?_⟩
  intro id
  unfold NewMapper
  split_ifs with h <;> simp [h]

/-- C8: divergence of the two palette-loader revisions on a 192-byte file:
the src/nes/color/color.go revision rejects it (it demands 64 bytes, and on
a 64-byte file its copy loop reads past the end of the buffer), while the
src/unnamed/part_007 revision accepts exactly 192-byte files and loads RGB
triplet i into entry i with alpha 0xFF, as the claim states. -/
theorem c8_palette_loader_divergence :
    exceptOk (NewColorPaletteOld palBytes) = false ∧
    exceptOk (NewColorPaletteOld (List.range 64)) = false ∧
    exceptOk (NewColorPalette palBytes) = true ∧
    exceptOk (NewColorPalette (List.range 64)) = false ∧
    paletteEntry (NewColorPalette palBytes) 0 = ⟨0, 1, 2, 0xFF⟩ ∧
    paletteEntry (NewColorPalette palBytes) 5 = ⟨15, 16, 17, 0xFF⟩ ∧
    paletteEntry (NewColorPalette palBytes) 63 = ⟨189, 190, 191, 0xFF⟩ := by
  decide

/-- C9 counterexample: from reset over a memory whose program is LDA #$10;
TAX; TAS $0000,Y, the TAS opcode (0x9B) assigns A & X = 0x10 directly to the
status register, so afterwards the live U bit is 0 and the live B bit is 1,
refuting the claimed invariant. -/
theorem c9_status_counterexample :
    (CPU.clockN 9 (NewCPU c9ram)).SR = 0x10 ∧
    (CPU.clockN 9 (NewCPU c9ram)).getStatus StatusUnused = false ∧
    (CPU.clockN 9 (NewCPU c9ram)).getStatus StatusBreak = true := by
  decide

/-- C9 (amended): reset establishes the live-status invariant U = 1, B = 0
(the register stays a byte), every CPU clock step whose fetched opcode is
not TAS (0x9B) preserves it, states satisfying it have U read as set and B
as clear, and the status byte pushed by PHP and by BRK has B set. -/
theorem c9_status_invariant :
    (∀ ram : Nat → Nat,
      (NewCPU ram).SR < 256 ∧ (NewCPU ram).SR &&& 0x30 = 0x20) ∧
    (∀ s : CPU, s.SR < 256 → s.SR &&& 0x30 = 0x20 →
      (s.cycles = 0 → s.Read s.PC ≠ 0x9B) →
      ((CPU.Clock s).1.SR < 256 ∧ (CPU.Clock s).1.SR &&& 0x30 = 0x20)) ∧
    (∀ s : CPU, s.SR &&& 0x30 = 0x20 →
      s.getStatus StatusUnused = true ∧ s.getStatus StatusBreak = false) ∧
    (∀ (s : CPU) (args : OperationArgs),
      (php s args).Read (StackPage + s.SP) &&& StatusBreak = StatusBreak) ∧
    (∀ (s : CPU) (args : OperationArgs),
      (brk s args).Read (StackPage + (s.SP + 254) % 256) &&& StatusBreak = StatusBreak) :=
  ⟨fun _ => ⟨(by decide : (36 : Nat) < 256), (by decide : (36 : Nat) &&& 0x30 = 0x20)⟩,
    fun s h1 h2 h3 => srinv_clock s ⟨h1, h2⟩ h3,
    srinv_getStatus,
    php_pushed_byte,
    brk_pushed_byte⟩

/-- C9 witness: the amended invariant applied at a concrete state whose next
opcode is BEQ (0xF0), not TAS. -/
theorem c9_status_invariant_witness :
    c3cpu.SR < 256 ∧ c3cpu.SR &&& 0x30 = 0x20 ∧
    (CPU.Clock c3cpu).1.SR &&& 0x30 = 0x20 :=
  ⟨by decide, by decide,
    (c9_status_invariant.2.1 c3cpu (by decide) (by decide) (by decide)).2⟩

/-- C10: in the PPU's internal memory, the palette entries at $3F10, $3F14,
$3F18 and $3F1C alias those at $3F00, $3F04, $3F08 and $3F0C: writing a byte
through either address of a pair and reading the other returns it. -/
theorem c10_palette_mirror (ppu : PPU) (v i : Nat) (hv : v < 256) (hi : i < 4) :
    (ppu.writeMemory (0x3F10 + 4 * i) v).readMemory (0x3F00 + 4 * i) = v ∧
    (ppu.writeMemory (0x3F00 + 4 * i) v).readMemory (0x3F10 + 4 * i) = v := by
  interval_cases i <;>
    constructor <;>
      simp [PPU.writeMemory, PPU.readMemory, Nat.mod_eq_of_lt hv]

/-- C10 witness: the $3F14/$3F04 pair at the concrete byte 0x2A. -/
theorem c10_palette_mirror_witness :
    (0x2A : Nat) < 256 ∧ (1 : Nat) < 4 ∧
    ((NewPPU cart0).writeMemory (0x3F10 + 4 * 1) 0x2A).readMemory (0x3F00 + 4 * 1) = 0x2A :=
  ⟨by decide, by decide,
    (c10_palette_mirror (NewPPU cart0) 0x2A 1 (by decide) (by decide)).1⟩


end Gonesem
